import Mathlib

/-!
Shallow embedding of the kryoptic PKCS#11 token core, verified against its
natural-language specification.  The Rust sources embedded here are
`src/object.rs`, `src/hmac.rs`, `src/fips/rsa.rs`, `src/ec/montgomery.rs`,
`src/storage/json.rs` and `src/mechanism.rs`.  Machine integers are modelled
as `Nat` (byte values, CK_ULONG values); byte buffers as `List Nat`;
fallible Rust functions returning `KResult<T>` become `Except KError T`.
-/

namespace Kryoptic

/-! ## PKCS#11 constants (`interface.rs`, generated from the PKCS#11 headers) -/

def CKR_OK : Nat := 0x00
def CKR_GENERAL_ERROR : Nat := 0x05
def CKR_ATTRIBUTE_SENSITIVE : Nat := 0x11
def CKR_ATTRIBUTE_TYPE_INVALID : Nat := 0x12
def CKR_ATTRIBUTE_VALUE_INVALID : Nat := 0x13
def CKR_DATA_LEN_RANGE : Nat := 0x21
def CKR_DEVICE_ERROR : Nat := 0x30
def CKR_KEY_SIZE_RANGE : Nat := 0x62
def CKR_KEY_TYPE_INCONSISTENT : Nat := 0x63
def CKR_MECHANISM_INVALID : Nat := 0x70
def CKR_MECHANISM_PARAM_INVALID : Nat := 0x71
def CKR_OPERATION_NOT_INITIALIZED : Nat := 0x91
def CKR_SIGNATURE_INVALID : Nat := 0xC0
def CKR_TEMPLATE_INCOMPLETE : Nat := 0xD0
def CKR_TEMPLATE_INCONSISTENT : Nat := 0xD1
def CKR_BUFFER_TOO_SMALL : Nat := 0x150

def CKA_CLASS : Nat := 0x00
def CKA_TOKEN : Nat := 0x01
def CKA_PRIVATE : Nat := 0x02
def CKA_LABEL : Nat := 0x03
def CKA_UNIQUE_ID : Nat := 0x04
def CKA_APPLICATION : Nat := 0x10
def CKA_VALUE : Nat := 0x11
def CKA_OBJECT_ID : Nat := 0x12
def CKA_KEY_TYPE : Nat := 0x100
def CKA_SENSITIVE : Nat := 0x103
def CKA_MODULUS : Nat := 0x120
def CKA_PUBLIC_EXPONENT : Nat := 0x122
def CKA_PRIVATE_EXPONENT : Nat := 0x123
def CKA_PRIME_1 : Nat := 0x124
def CKA_PRIME_2 : Nat := 0x125
def CKA_EXPONENT_1 : Nat := 0x126
def CKA_EXPONENT_2 : Nat := 0x127
def CKA_COEFFICIENT : Nat := 0x128
def CKA_VALUE_BITS : Nat := 0x160
def CKA_VALUE_LEN : Nat := 0x161
def CKA_EXTRACTABLE : Nat := 0x162
def CKA_LOCAL : Nat := 0x163
def CKA_MODIFIABLE : Nat := 0x170
def CKA_COPYABLE : Nat := 0x171
def CKA_DESTROYABLE : Nat := 0x172
def CKA_EC_PARAMS : Nat := 0x180
def CKA_EC_POINT : Nat := 0x181

def CKO_DATA : Nat := 0x00
def CKO_CERTIFICATE : Nat := 0x01
def CKO_PUBLIC_KEY : Nat := 0x02
def CKO_PRIVATE_KEY : Nat := 0x03
def CKO_SECRET_KEY : Nat := 0x04

def CKK_RSA : Nat := 0x00
def CKK_DSA : Nat := 0x01
def CKK_DH : Nat := 0x02
def CKK_EC : Nat := 0x03
def CKK_X9_42_DH : Nat := 0x04
def CKK_GENERIC_SECRET : Nat := 0x10
def CKK_SHA_1_HMAC : Nat := 0x28
def CKK_SHA256_HMAC : Nat := 0x2B
def CKK_SHA384_HMAC : Nat := 0x2C
def CKK_SHA512_HMAC : Nat := 0x2D
def CKK_EC_EDWARDS : Nat := 0x40
def CKK_EC_MONTGOMERY : Nat := 0x41

def CKM_RSA_PKCS : Nat := 0x01
def CKM_SHA1_RSA_PKCS : Nat := 0x06
def CKM_SHA256_RSA_PKCS : Nat := 0x40
def CKM_SHA384_RSA_PKCS : Nat := 0x41
def CKM_SHA512_RSA_PKCS : Nat := 0x42
def CKM_SHA224_RSA_PKCS : Nat := 0x46
def CKM_SHA_1_HMAC : Nat := 0x221
def CKM_SHA_1_HMAC_GENERAL : Nat := 0x222
def CKM_SHA256_HMAC : Nat := 0x251
def CKM_SHA256_HMAC_GENERAL : Nat := 0x252
def CKM_SHA384_HMAC : Nat := 0x261
def CKM_SHA384_HMAC_GENERAL : Nat := 0x262
def CKM_SHA512_HMAC : Nat := 0x271
def CKM_SHA512_HMAC_GENERAL : Nat := 0x272
def CKM_SHA3_224_RSA_PKCS : Nat := 0x60
def CKM_SHA3_256_RSA_PKCS : Nat := 0x62
def CKM_SHA3_384_RSA_PKCS : Nat := 0x63
def CKM_SHA3_512_RSA_PKCS : Nat := 0x65
def CKM_EC_MONTGOMERY_KEY_PAIR_GEN : Nat := 0x1055

def CKF_SIGN : Nat := 0x800
def CKF_VERIFY : Nat := 0x2000
def CKF_GENERATE_KEY_PAIR : Nat := 0x10000

/-- `CK_UNAVAILABLE_INFORMATION` is `!0` as a 64-bit `CK_ULONG`. -/
def CK_UNAVAILABLE_INFORMATION : Nat := 2 ^ 64 - 1

/-! ## Error model (`error.rs`): `KResult<T> = Result<T, KError>`; `err_rv!`
produces the `RvError` variant carrying a `CK_RV`, `err_not_found!` the
not-found variant. -/

inductive KError where
  | RvError (rv : Nat)
  | NotFound (s : String)
  deriving DecidableEq, Repr

abbrev KResult (α : Type) := Except KError α

instance {ε α : Type} [DecidableEq ε] [DecidableEq α] :
    DecidableEq (Except ε α) := fun x y =>
  match x, y with
  | Except.error a, Except.error b =>
    if h : a = b then Decidable.isTrue (by rw [h])
    else Decidable.isFalse (fun hc => h (Except.error.inj hc))
  | Except.error _, Except.ok _ =>
    Decidable.isFalse (fun hc => Except.noConfusion hc)
  | Except.ok _, Except.error _ =>
    Decidable.isFalse (fun hc => Except.noConfusion hc)
  | Except.ok a, Except.ok b =>
    if h : a = b then Decidable.isTrue (by rw [h])
    else Decidable.isFalse (fun hc => h (Except.ok.inj hc))

/-! ## Attribute model.

Modelled from the spec: `attribute.rs` is not among the sources; §3 and §4.1
of the spec describe an attribute as a numeric id tagged with one of the
variants Bool/Num/String/Bytes/Date/Ignore/Deny, carrying its raw octet
representation, with variant-checked accessors that fail with
`AttributeTypeInvalid` on a variant mismatch and `AttributeValueInvalid`
when the byte length contradicts the variant (Bool is 1 byte, Num is the
platform unsigned-long width, here 8 bytes little-endian). -/

inductive AttrType where
  | BoolType
  | NumType
  | StringType
  | BytesType
  | DateType
  | IgnoreType
  | DenyType
  deriving DecidableEq, Repr

structure Attribute where
  typ : Nat
  atype : AttrType
  value : List Nat
  deriving DecidableEq, Repr

/-- Little-endian 8-byte encoding of a `CK_ULONG`. -/
def ulongToBytes (v : Nat) : List Nat :=
  [v % 256, v / 256 % 256, v / 256 ^ 2 % 256, v / 256 ^ 3 % 256,
   v / 256 ^ 4 % 256, v / 256 ^ 5 % 256, v / 256 ^ 6 % 256, v / 256 ^ 7 % 256]

def bytesToUlong (l : List Nat) : Nat :=
  l.foldr (fun b acc => b % 256 + 256 * acc) 0

def Attribute.from_bool (id : Nat) (b : Bool) : Attribute :=
  ⟨id, AttrType.BoolType, [if b then 1 else 0]⟩

def Attribute.from_ulong (id : Nat) (v : Nat) : Attribute :=
  ⟨id, AttrType.NumType, ulongToBytes v⟩

def Attribute.from_bytes (id : Nat) (v : List Nat) : Attribute :=
  ⟨id, AttrType.BytesType, v⟩

def Attribute.from_string_bytes (id : Nat) (v : List Nat) : Attribute :=
  ⟨id, AttrType.StringType, v⟩

def Attribute.get_type (a : Attribute) : Nat := a.typ

def Attribute.get_attrtype (a : Attribute) : AttrType := a.atype

def Attribute.get_value (a : Attribute) : List Nat := a.value

def Attribute.to_bool (a : Attribute) : KResult Bool :=
  if a.atype = AttrType.BoolType then
    match a.value with
    | [b] => Except.ok (b ≠ 0)
    | _ => Except.error (KError.RvError CKR_ATTRIBUTE_VALUE_INVALID)
  else Except.error (KError.RvError CKR_ATTRIBUTE_TYPE_INVALID)

def Attribute.to_ulong (a : Attribute) : KResult Nat :=
  if a.atype = AttrType.NumType then
    if a.value.length = 8 then Except.ok (bytesToUlong a.value)
    else Except.error (KError.RvError CKR_ATTRIBUTE_VALUE_INVALID)
  else Except.error (KError.RvError CKR_ATTRIBUTE_TYPE_INVALID)

def Attribute.to_bytes (a : Attribute) : KResult (List Nat) :=
  if a.atype = AttrType.BytesType then Except.ok a.value
  else Except.error (KError.RvError CKR_ATTRIBUTE_TYPE_INVALID)

def Attribute.to_string_bytes (a : Attribute) : KResult (List Nat) :=
  if a.atype = AttrType.StringType then Except.ok a.value
  else Except.error (KError.RvError CKR_ATTRIBUTE_TYPE_INVALID)

/-! ## Sensitivity tables (`object.rs` lines 44-70). -/

def SENSITIVE_CKK_RSA : List Nat :=
  [CKA_PRIVATE_EXPONENT, CKA_PRIME_1, CKA_PRIME_2,
   CKA_EXPONENT_1, CKA_EXPONENT_2, CKA_COEFFICIENT]

def SENSITIVE_CKK_EC : List Nat := [CKA_VALUE]

def SENSITIVE_CKK_DH : List Nat := [CKA_VALUE, CKA_VALUE_BITS]

def SENSITIVE_CKK_DSA : List Nat := [CKA_VALUE]

def SENSITIVE_CKK_GENERIC_SECRET : List Nat := [CKA_VALUE, CKA_VALUE_LEN]

def SENSITIVE : List (Nat × List Nat) :=
  [(CKK_RSA, SENSITIVE_CKK_RSA),
   (CKK_EC, SENSITIVE_CKK_EC),
   (CKK_EC_EDWARDS, SENSITIVE_CKK_EC),
   (CKK_EC_MONTGOMERY, SENSITIVE_CKK_EC),
   (CKK_DH, SENSITIVE_CKK_DH),
   (CKK_X9_42_DH, SENSITIVE_CKK_DH),
   (CKK_DSA, SENSITIVE_CKK_DSA),
   (CKK_GENERIC_SECRET, SENSITIVE_CKK_GENERIC_SECRET)]

/-! ## Object (`object.rs`). -/

structure Object where
  handle : Nat
  attributes : List Attribute
  deriving DecidableEq, Repr

/-- First attribute in declaration order whose id matches, as the Rust
`for`-loops over `self.attributes` do. -/
def Object.findAttr (o : Object) (t : Nat) : Option Attribute :=
  o.attributes.find? (fun a => a.typ = t)

/-- The `create_bool_checker!` macro: first attribute with the given id,
`to_bool().unwrap_or(def)`, or the default when absent. -/
def Object.boolChecker (o : Object) (id : Nat) (d : Bool) : Bool :=
  match o.findAttr id with
  | some a => (a.to_bool.toOption).getD d
  | none => d

def Object.is_token (o : Object) : Bool := o.boolChecker CKA_TOKEN false
def Object.is_private (o : Object) : Bool := o.boolChecker CKA_PRIVATE true
def Object.is_sensitive (o : Object) : Bool := o.boolChecker CKA_SENSITIVE true
def Object.is_modifiable (o : Object) : Bool := o.boolChecker CKA_MODIFIABLE true
def Object.is_destroyable (o : Object) : Bool := o.boolChecker CKA_DESTROYABLE false
def Object.is_extractable (o : Object) : Bool := o.boolChecker CKA_EXTRACTABLE false

/-- `Object::set_attr`: replace the first attribute with the same id, or push. -/
def setAttrList : List Attribute → Attribute → List Attribute
  | [], a => [a]
  | b :: rest, a => if a.typ = b.typ then a :: rest else b :: setAttrList rest a

def Object.set_attr (o : Object) (a : Attribute) : Object :=
  ⟨o.handle, setAttrList o.attributes a⟩

/-- The `attr_as_type!` macro instances: first attribute with the id;
variant mismatch is `CKR_ATTRIBUTE_TYPE_INVALID`; a missing attribute is the
not-found error. -/
def Object.get_attr_as_bool (o : Object) (t : Nat) : KResult Bool :=
  match o.findAttr t with
  | some a =>
    if a.atype = AttrType.BoolType then a.to_bool
    else Except.error (KError.RvError CKR_ATTRIBUTE_TYPE_INVALID)
  | none => Except.error (KError.NotFound (toString t))

def Object.get_attr_as_ulong (o : Object) (t : Nat) : KResult Nat :=
  match o.findAttr t with
  | some a =>
    if a.atype = AttrType.NumType then a.to_ulong
    else Except.error (KError.RvError CKR_ATTRIBUTE_TYPE_INVALID)
  | none => Except.error (KError.NotFound (toString t))

def Object.get_attr_as_bytes (o : Object) (t : Nat) : KResult (List Nat) :=
  match o.findAttr t with
  | some a =>
    if a.atype = AttrType.BytesType then a.to_bytes
    else Except.error (KError.RvError CKR_ATTRIBUTE_TYPE_INVALID)
  | none => Except.error (KError.NotFound (toString t))

/-- `Object::match_template`: a template attribute matches when some object
attribute has the same id and byte-equal value (`Attribute::match_ck_attr`,
modelled from the spec: "match another attribute by id and byte-equal
value"). -/
def Object.match_template (o : Object) (template : List Attribute) : Bool :=
  template.all (fun ck =>
    o.attributes.any (fun a => a.typ = ck.typ ∧ a.value = ck.value))

/-- `Object::private_key_type`: scan all attributes, remembering the last
`CLASS` and `KEY_TYPE` values (`unwrap_or(CK_UNAVAILABLE_INFORMATION)`);
report the key type only for private- or secret-key objects. -/
def Object.private_key_type (o : Object) : Option Nat :=
  let r := o.attributes.foldl
    (fun (p : Nat × Nat) a =>
      if a.typ = CKA_CLASS then
        ((a.to_ulong.toOption).getD CK_UNAVAILABLE_INFORMATION, p.2)
      else if a.typ = CKA_KEY_TYPE then
        (p.1, (a.to_ulong.toOption).getD CK_UNAVAILABLE_INFORMATION)
      else p)
    (CK_UNAVAILABLE_INFORMATION, CK_UNAVAILABLE_INFORMATION)
  if r.1 = CKO_PRIVATE_KEY ∨ r.1 = CKO_SECRET_KEY then some r.2 else none

/-- `Object::needs_sensitivity_check`: look the private key type up in the
`SENSITIVE` table. -/
def Object.needs_sensitivity_check (o : Object) : Option (List Nat) :=
  match o.private_key_type with
  | none => none
  | some kt => (SENSITIVE.find? (fun t => t.1 = kt)).map (fun t => t.2)

/-- `Object::is_sensitive_attr`. -/
def Object.is_sensitive_attr (o : Object) (id : Nat) (sense : List Nat) : Bool :=
  if ¬ (sense.contains id) then false
  else if o.is_sensitive then true
  else if ¬ o.is_extractable then true
  else false

/-! ### `Object::fill_template`.

A caller-side `CK_ATTRIBUTE` entry is its id plus either a null value
pointer or a buffer of the given capacity (`ulValueLen` on input); the
per-entry outcome is the output `ulValueLen` and the bytes written into the
buffer, if any. -/

structure CkAttrIn where
  type_ : Nat
  pValue : Option Nat
  deriving DecidableEq, Repr

structure CkAttrOut where
  ulValueLen : Nat
  written : Option (List Nat)
  deriving DecidableEq, Repr

/-- One iteration of the `fill_template` loop body: given the running `rv`,
produce the entry's output and the new `rv`. -/
def fillEntry (o : Object) (sense : Option (List Nat)) (e : CkAttrIn) (rv : Nat) :
    CkAttrOut × Nat :=
  let found : CkAttrOut × Nat :=
    match o.findAttr e.type_ with
    | none => (⟨CK_UNAVAILABLE_INFORMATION, none⟩, CKR_ATTRIBUTE_TYPE_INVALID)
    | some a =>
      match e.pValue with
      | none => (⟨a.get_value.length, none⟩, rv)
      | some cap =>
        if cap < a.get_value.length then
          (⟨CK_UNAVAILABLE_INFORMATION, none⟩, CKR_BUFFER_TOO_SMALL)
        else (⟨a.get_value.length, some a.get_value⟩, rv)
  match sense with
  | some s =>
    if o.is_sensitive_attr e.type_ s then
      (⟨CK_UNAVAILABLE_INFORMATION, none⟩, CKR_ATTRIBUTE_SENSITIVE)
    else found
  | none => found

def fillLoop (o : Object) (sense : Option (List Nat)) :
    List CkAttrIn → Nat → List CkAttrOut × Nat
  | [], rv => ([], rv)
  | e :: rest, rv =>
    let (out, rv1) := fillEntry o sense e rv
    let (outs, rvf) := fillLoop o sense rest rv1
    (out :: outs, rvf)

def Object.fill_template (o : Object) (template : List CkAttrIn) :
    List CkAttrOut × KResult Unit :=
  let sense := o.needs_sensitivity_check
  let (outs, rv) := fillLoop o sense template CKR_OK
  (outs, if rv = CKR_OK then Except.ok () else Except.error (KError.RvError rv))

/-! ## HMAC operation (`hmac.rs`).

The inner streaming digest (`sha1.rs`/`sha2.rs` wrappers over the provider,
not among the sources) is modelled from the spec as a buffer of absorbed
bytes plus the hash function `H` applied at `digest_final`; `reset` clears
the buffer.  `H`, the block length `B` and the hash length `L` are
parameters; the theorems assume `∀ x, (H x).length = L` and `L ≤ B`, which
hold for SHA-1/256/384/512. -/

/-- `Vec::resize(n, v)`: truncate to `n` or right-pad with `v`. -/
def listResize (l : List Nat) (n : Nat) (v : Nat) : List Nat :=
  l.take n ++ List.replicate (n - l.length) v

structure HMACOperation where
  mech : Nat
  hashlen : Nat
  blocklen : Nat
  outputlen : Nat
  state : List Nat
  ipad : List Nat
  opad : List Nat
  /-- absorbed bytes of the inner streaming digest since its last reset -/
  innerBuf : List Nat
  finalized : Bool
  in_use : Bool
  deriving DecidableEq, Repr

/-- `HMACOperation::init`: derive `K0` into `state`, build `ipad`/`opad`,
reset the inner digest and absorb `ipad`.  `H`, `blocklen`, `hashlen` stand
for the hash selected by the `match` on the mechanism. -/
def HMACOperation.init (H : List Nat → List Nat) (blocklen hashlen : Nat)
    (mech : Nat) (key : List Nat) (outputlen : Nat) : HMACOperation :=
  let k0base := if key.length ≤ blocklen then key else H key
  let state := listResize k0base blocklen 0
  let ipad := List.zipWith (fun i1 i2 => i1 ^^^ i2)
    (List.replicate blocklen 0x36) state
  let opad := List.zipWith (fun i1 i2 => i1 ^^^ i2)
    (List.replicate blocklen 0x5c) state
  { mech := mech, hashlen := hashlen, blocklen := blocklen,
    outputlen := outputlen, state := state, ipad := ipad, opad := opad,
    innerBuf := ipad, finalized := false, in_use := false }

/-- `HMACOperation::update`: absorb into the inner digest. -/
def HMACOperation.update (op : HMACOperation) (data : List Nat) :
    KResult Unit × HMACOperation :=
  (Except.ok (), { op with innerBuf := op.innerBuf ++ data })

/-- `HMACOperation::finalize`: `state := H(ipad ‖ text)` (the inner
`digest_final` writes `hashlen` bytes into the resized `state`), then
`state := H(opad ‖ state)` and copy the first `output.len()` bytes out.
The source's `copy_from_slice(&self.state[..output.len()])` asks for
`outLen ≤ hashlen`, which the mechanism's parameter validation guarantees. -/
def HMACOperation.finalize (H : List Nat → List Nat) (op : HMACOperation)
    (outLen : Nat) : KResult (List Nat) × HMACOperation :=
  let inner := H op.innerBuf
  let outer := H (op.opad ++ inner)
  (Except.ok (outer.take outLen), { op with state := outer, innerBuf := [] })

def HMACOperation.sign_update (op : HMACOperation) (data : List Nat) :
    KResult Unit × HMACOperation :=
  if op.finalized then
    (Except.error (KError.RvError CKR_OPERATION_NOT_INITIALIZED), op)
  else
    HMACOperation.update { op with in_use := true } data

/-- `HMACOperation::sign_final`; `sigLen` is the caller's signature buffer
length, the returned bytes are what gets written into it. -/
def HMACOperation.sign_final (H : List Nat → List Nat) (op : HMACOperation)
    (sigLen : Nat) : KResult (List Nat) × HMACOperation :=
  if ¬ op.in_use then
    (Except.error (KError.RvError CKR_OPERATION_NOT_INITIALIZED), op)
  else if op.finalized then
    (Except.error (KError.RvError CKR_OPERATION_NOT_INITIALIZED), op)
  else
    let op1 := { op with finalized := true }
    if sigLen ≠ op1.outputlen then
      (Except.error (KError.RvError CKR_GENERAL_ERROR), op1)
    else HMACOperation.finalize H op1 sigLen

/-- One-shot `Sign::sign` for the HMAC operation. -/
def HMACOperation.sign (H : List Nat → List Nat) (op : HMACOperation)
    (data : List Nat) (sigLen : Nat) : KResult (List Nat) × HMACOperation :=
  if op.in_use then
    (Except.error (KError.RvError CKR_OPERATION_NOT_INITIALIZED), op)
  else
    match HMACOperation.sign_update op data with
    | (Except.error e, op1) => (Except.error e, { op1 with finalized := true })
    | (Except.ok _, op1) => HMACOperation.sign_final H op1 sigLen

def HMACOperation.verify_update (op : HMACOperation) (data : List Nat) :
    KResult Unit × HMACOperation :=
  if op.finalized then
    (Except.error (KError.RvError CKR_OPERATION_NOT_INITIALIZED), op)
  else
    HMACOperation.update { op with in_use := true } data

/-- `HMACOperation::verify_final`: recompute the MAC into a scratch buffer
of `outputlen` bytes and compare byte-equal with the provided signature. -/
def HMACOperation.verify_final (H : List Nat → List Nat) (op : HMACOperation)
    (signature : List Nat) : KResult Unit × HMACOperation :=
  if ¬ op.in_use then
    (Except.error (KError.RvError CKR_OPERATION_NOT_INITIALIZED), op)
  else if op.finalized then
    (Except.error (KError.RvError CKR_OPERATION_NOT_INITIALIZED), op)
  else
    let op1 := { op with finalized := true }
    if signature.length ≠ op1.outputlen then
      (Except.error (KError.RvError CKR_GENERAL_ERROR), op1)
    else
      match HMACOperation.finalize H op1 op1.outputlen with
      | (Except.error e, op2) => (Except.error e, op2)
      | (Except.ok v, op2) =>
        if v ≠ signature then
          (Except.error (KError.RvError CKR_SIGNATURE_INVALID), op2)
        else (Except.ok (), op2)

/-- One-shot `Verify::verify` for the HMAC operation. -/
def HMACOperation.verify (H : List Nat → List Nat) (op : HMACOperation)
    (data : List Nat) (signature : List Nat) : KResult Unit × HMACOperation :=
  if op.in_use then
    (Except.error (KError.RvError CKR_OPERATION_NOT_INITIALIZED), op)
  else
    match HMACOperation.verify_update op data with
    | (Except.error e, op1) => (Except.error e, { op1 with finalized := true })
    | (Except.ok _, op1) => HMACOperation.verify_final H op1 signature

/-- Drive a chain of `sign_update` calls, stopping at the first error. -/
def HMACOperation.signUpdates (op : HMACOperation) :
    List (List Nat) → KResult Unit × HMACOperation
  | [] => (Except.ok (), op)
  | d :: ds =>
    match HMACOperation.sign_update op d with
    | (Except.ok _, op1) => HMACOperation.signUpdates op1 ds
    | (Except.error e, op1) => (Except.error e, op1)

/-! ## HMAC key and parameter checks (`hmac.rs` lines 22-137). -/

/-- `check_and_fetch_key`. -/
def check_and_fetch_key (key : Object) (keytype : Nat) : KResult (List Nat) := do
  let cls ← key.get_attr_as_ulong CKA_CLASS
  if cls ≠ CKO_SECRET_KEY then
    Except.error (KError.RvError CKR_KEY_TYPE_INCONSISTENT)
  else do
    let t ← key.get_attr_as_ulong CKA_KEY_TYPE
    if t ≠ CKK_GENERIC_SECRET ∧ t ≠ keytype then
      Except.error (KError.RvError CKR_KEY_TYPE_INCONSISTENT)
    else
      key.get_attr_as_bytes CKA_VALUE

/-- `CK_MECHANISM`: mechanism type, parameter length in bytes, and the
`CK_ULONG` value read from the parameter when its length matches
`size_of::<CK_ULONG>() = 8`. -/
structure CkMech where
  mechanism : Nat
  ulParameterLen : Nat
  paramValue : Nat
  deriving DecidableEq, Repr

/-- `check_and_fetch_param`. -/
def check_and_fetch_param (mech : CkMech) (lo hi : Nat) : KResult Nat :=
  if lo = hi then
    if mech.ulParameterLen ≠ 0 then
      Except.error (KError.RvError CKR_MECHANISM_PARAM_INVALID)
    else Except.ok hi
  else if mech.ulParameterLen ≠ 8 then
    Except.error (KError.RvError CKR_MECHANISM_PARAM_INVALID)
  else
    let genlen := mech.paramValue
    if genlen < lo ∨ genlen > hi then
      Except.error (KError.RvError CKR_MECHANISM_PARAM_INVALID)
    else Except.ok genlen

structure MechInfo where
  ulMinKeySize : Nat
  ulMaxKeySize : Nat
  flags : Nat
  deriving DecidableEq, Repr

structure HMACMechanism where
  info : MechInfo
  keytype : Nat
  minlen : Nat
  maxlen : Nat
  deriving DecidableEq, Repr

/-- The hash selected by the `match mech.mechanism` arms of
`HMACMechanism::{sign_new, verify_new}`, as the pair (block length, hash
length) of SHA-1/SHA-256/SHA-384/SHA-512; the hash function itself is the
parameter `H` of the operation. -/
def hmacHashParams (mech : Nat) : Option (Nat × Nat) :=
  if mech = CKM_SHA_1_HMAC ∨ mech = CKM_SHA_1_HMAC_GENERAL then some (64, 20)
  else if mech = CKM_SHA256_HMAC ∨ mech = CKM_SHA256_HMAC_GENERAL then some (64, 32)
  else if mech = CKM_SHA384_HMAC ∨ mech = CKM_SHA384_HMAC_GENERAL then some (128, 48)
  else if mech = CKM_SHA512_HMAC ∨ mech = CKM_SHA512_HMAC_GENERAL then some (128, 64)
  else none

/-- `HMACMechanism::sign_new`. -/
def HMACMechanism.sign_new (H : List Nat → List Nat) (m : HMACMechanism)
    (mech : CkMech) (keyobj : Object) : KResult HMACOperation := do
  if m.info.flags &&& CKF_SIGN ≠ CKF_SIGN then
    Except.error (KError.RvError CKR_MECHANISM_INVALID)
  else do
    let output_len ← check_and_fetch_param mech m.minlen m.maxlen
    let key ← check_and_fetch_key keyobj m.keytype
    match hmacHashParams mech.mechanism with
    | none => Except.error (KError.RvError CKR_MECHANISM_INVALID)
    | some (b, l) =>
      Except.ok (HMACOperation.init H b l mech.mechanism key output_len)

/-- `HMACMechanism::verify_new`: same body as `sign_new` with the
`CKF_VERIFY` capability gate. -/
def HMACMechanism.verify_new (H : List Nat → List Nat) (m : HMACMechanism)
    (mech : CkMech) (keyobj : Object) : KResult HMACOperation := do
  if m.info.flags &&& CKF_VERIFY ≠ CKF_VERIFY then
    Except.error (KError.RvError CKR_MECHANISM_INVALID)
  else do
    let output_len ← check_and_fetch_param mech m.minlen m.maxlen
    let key ← check_and_fetch_key keyobj m.keytype
    match hmacHashParams mech.mechanism with
    | none => Except.error (KError.RvError CKR_MECHANISM_INVALID)
    | some (b, l) =>
      Except.ok (HMACOperation.init H b l mech.mechanism key output_len)

/-! ## RSA PKCS#1 v1.5 operations (`fips/rsa.rs`).

The provider primitives (`fips.rs` EVP wrappers and `ProviderSignatureCtx`,
not among the sources) are modelled from the spec as an abstract record of
deterministic functions; each `!= 1`/constructor failure path in the source
maps a provider error to `CKR_DEVICE_ERROR`, except `digest_verify_final`,
whose provider error code (e.g. `CKR_SIGNATURE_INVALID` on mismatch)
surfaces as-is. -/

structure RsaProvider where
  /-- `object_to_rsa_public_key` provider part (`EVP_PKEY_fromdata` etc.). -/
  pubImport : Except Unit Unit
  /-- `object_to_rsa_private_key` provider part. -/
  privImport : Except Unit Unit
  /-- `EVP_PKEY_encrypt` after init and PKCS#1 v1.5 pad-mode params. -/
  evpEncrypt : List Nat → Except Unit (List Nat)
  /-- `EVP_PKEY_decrypt` after init and pad-mode params. -/
  evpDecrypt : List Nat → Except Unit (List Nat)
  /-- `EVP_PKEY_sign` with the private key after `EVP_PKEY_sign_init`. -/
  evpSign : List Nat → Except Unit (List Nat)
  /-- The raw verify path's `EVP_PKEY_sign` call, made on a context created
  from the public key and initialized with `EVP_PKEY_verify_init`; it is fed
  only `data` and the signature buffer it may write into. -/
  evpVerifyCtxSign : List Nat → Except Unit (List Nat)
  /-- `ProviderSignatureCtx::digest_sign_final` over the absorbed data. -/
  digestSign : List Nat → Except Unit (List Nat)
  /-- `ProviderSignatureCtx::digest_verify_final`: absorbed data and
  signature; an error carries the provider's `CK_RV`. -/
  digestVerify : List Nat → List Nat → Except Nat Unit

structure RsaPKCSOperation where
  mech : Nat
  max_input : Nat
  output_len : Nat
  finalized : Bool
  in_use : Bool
  /-- `sigctx`: `none` for raw `CKM_RSA_PKCS`; for the digest mechanisms,
  the bytes absorbed through `digest_sign_update`/`digest_verify_update`. -/
  sigbuf : Option (List Nat)
  deriving DecidableEq, Repr

/-- `get_digest_name`. -/
def get_digest_name (mech : Nat) : KResult Nat :=
  if mech = CKM_RSA_PKCS then Except.ok 0
  else if mech = CKM_SHA1_RSA_PKCS ∨ mech = CKM_SHA224_RSA_PKCS
    ∨ mech = CKM_SHA256_RSA_PKCS ∨ mech = CKM_SHA384_RSA_PKCS
    ∨ mech = CKM_SHA512_RSA_PKCS ∨ mech = CKM_SHA3_224_RSA_PKCS
    ∨ mech = CKM_SHA3_256_RSA_PKCS ∨ mech = CKM_SHA3_384_RSA_PKCS
    ∨ mech = CKM_SHA3_512_RSA_PKCS then Except.ok mech
  else Except.error (KError.RvError CKR_GENERAL_ERROR)

/-- The key-size gate shared by all four constructors:
`bits = |MODULUS| * 8` against the mechanism info. -/
def keySizeBad (modulusLen : Nat) (info : MechInfo) : Bool :=
  modulusLen * 8 < info.ulMinKeySize
    ∨ (info.ulMaxKeySize ≠ 0 ∧ modulusLen * 8 > info.ulMaxKeySize)

/-- `RsaPKCSOperation::encrypt_new`. -/
def RsaPKCSOperation.encrypt_new (prov : RsaProvider) (mech : CkMech)
    (key : Object) (info : MechInfo) : KResult RsaPKCSOperation := do
  let modulus ← key.get_attr_as_bytes CKA_MODULUS
  if keySizeBad modulus.length info then
    Except.error (KError.RvError CKR_KEY_SIZE_RANGE)
  else if mech.mechanism ≠ CKM_RSA_PKCS then
    Except.error (KError.RvError CKR_MECHANISM_INVALID)
  else
    match prov.pubImport with
    | Except.error _ => Except.error (KError.RvError CKR_DEVICE_ERROR)
    | Except.ok _ =>
      Except.ok { mech := mech.mechanism, max_input := modulus.length - 11,
                  output_len := modulus.length, finalized := false,
                  in_use := false, sigbuf := none }

/-- `RsaPKCSOperation::decrypt_new`. -/
def RsaPKCSOperation.decrypt_new (prov : RsaProvider) (mech : CkMech)
    (key : Object) (info : MechInfo) : KResult RsaPKCSOperation := do
  let modulus ← key.get_attr_as_bytes CKA_MODULUS
  if keySizeBad modulus.length info then
    Except.error (KError.RvError CKR_KEY_SIZE_RANGE)
  else if mech.mechanism ≠ CKM_RSA_PKCS then
    Except.error (KError.RvError CKR_MECHANISM_INVALID)
  else
    match prov.pubImport, prov.privImport with
    | Except.error _, _ => Except.error (KError.RvError CKR_DEVICE_ERROR)
    | _, Except.error _ => Except.error (KError.RvError CKR_DEVICE_ERROR)
    | Except.ok _, Except.ok _ =>
      Except.ok { mech := mech.mechanism, max_input := modulus.length,
                  output_len := modulus.length - 11, finalized := false,
                  in_use := false, sigbuf := none }

/-- `RsaPKCSOperation::sign_new`. -/
def RsaPKCSOperation.sign_new (prov : RsaProvider) (mech : CkMech)
    (key : Object) (info : MechInfo) : KResult RsaPKCSOperation := do
  let modulus ← key.get_attr_as_bytes CKA_MODULUS
  if keySizeBad modulus.length info then
    Except.error (KError.RvError CKR_KEY_SIZE_RANGE)
  else
    match prov.pubImport, prov.privImport with
    | Except.error _, _ => Except.error (KError.RvError CKR_DEVICE_ERROR)
    | _, Except.error _ => Except.error (KError.RvError CKR_DEVICE_ERROR)
    | Except.ok _, Except.ok _ => do
      let _ ← get_digest_name mech.mechanism
      Except.ok { mech := mech.mechanism,
                  max_input := if mech.mechanism = CKM_RSA_PKCS
                    then modulus.length - 11 else 0,
                  output_len := modulus.length, finalized := false,
                  in_use := false,
                  sigbuf := if mech.mechanism = CKM_RSA_PKCS
                    then none else some [] }

/-- `RsaPKCSOperation::verify_new`. -/
def RsaPKCSOperation.verify_new (prov : RsaProvider) (mech : CkMech)
    (key : Object) (info : MechInfo) : KResult RsaPKCSOperation := do
  let modulus ← key.get_attr_as_bytes CKA_MODULUS
  if keySizeBad modulus.length info then
    Except.error (KError.RvError CKR_KEY_SIZE_RANGE)
  else
    match prov.pubImport with
    | Except.error _ => Except.error (KError.RvError CKR_DEVICE_ERROR)
    | Except.ok _ => do
      let _ ← get_digest_name mech.mechanism
      Except.ok { mech := mech.mechanism,
                  max_input := if mech.mechanism = CKM_RSA_PKCS
                    then modulus.length - 11 else 0,
                  output_len := modulus.length, finalized := false,
                  in_use := false,
                  sigbuf := if mech.mechanism = CKM_RSA_PKCS
                    then none else some [] }

/-- `Encryption::encrypt` (one-shot).  `cipherBuf` is `none` for a null
output pointer (size query) or the buffer capacity; the result is the
required length (size query) or the ciphertext bytes. -/
def RsaPKCSOperation.encrypt (prov : RsaProvider) (op : RsaPKCSOperation)
    (plain : List Nat) (cipherBuf : Option Nat) :
    KResult (Nat ⊕ List Nat) × RsaPKCSOperation :=
  if op.in_use then
    (Except.error (KError.RvError CKR_OPERATION_NOT_INITIALIZED), op)
  else if op.finalized then
    (Except.error (KError.RvError CKR_OPERATION_NOT_INITIALIZED), op)
  else
    match prov.evpEncrypt plain with
    | Except.error _ => (Except.error (KError.RvError CKR_DEVICE_ERROR), op)
    | Except.ok ct =>
      match cipherBuf with
      | none => (Except.ok (Sum.inl ct.length), op)
      | some cap =>
        if cap < ct.length then
          (Except.error (KError.RvError CKR_BUFFER_TOO_SMALL), op)
        else (Except.ok (Sum.inr ct), { op with finalized := true })

def RsaPKCSOperation.encrypt_update (op : RsaPKCSOperation) :
    KResult Unit × RsaPKCSOperation :=
  (Except.error (KError.RvError CKR_OPERATION_NOT_INITIALIZED),
   { op with finalized := true })

def RsaPKCSOperation.encrypt_final (op : RsaPKCSOperation) :
    KResult Unit × RsaPKCSOperation :=
  (Except.error (KError.RvError CKR_OPERATION_NOT_INITIALIZED),
   { op with finalized := true })

/-- `Decryption::decrypt` (one-shot). -/
def RsaPKCSOperation.decrypt (prov : RsaProvider) (op : RsaPKCSOperation)
    (cipher : List Nat) (plainBuf : Option Nat) :
    KResult (Nat ⊕ List Nat) × RsaPKCSOperation :=
  if op.in_use then
    (Except.error (KError.RvError CKR_OPERATION_NOT_INITIALIZED), op)
  else if op.finalized then
    (Except.error (KError.RvError CKR_OPERATION_NOT_INITIALIZED), op)
  else
    match prov.evpDecrypt cipher with
    | Except.error _ => (Except.error (KError.RvError CKR_DEVICE_ERROR), op)
    | Except.ok pt =>
      match plainBuf with
      | none => (Except.ok (Sum.inl pt.length), op)
      | some cap =>
        if cap < pt.length then
          (Except.error (KError.RvError CKR_BUFFER_TOO_SMALL), op)
        else (Except.ok (Sum.inr pt), { op with finalized := true })

def RsaPKCSOperation.decrypt_update (op : RsaPKCSOperation) :
    KResult Unit × RsaPKCSOperation :=
  (Except.error (KError.RvError CKR_OPERATION_NOT_INITIALIZED),
   { op with finalized := true })

def RsaPKCSOperation.decrypt_final (op : RsaPKCSOperation) :
    KResult Unit × RsaPKCSOperation :=
  (Except.error (KError.RvError CKR_OPERATION_NOT_INITIALIZED),
   { op with finalized := true })

/-- `Sign::sign_update`. -/
def RsaPKCSOperation.sign_update (op : RsaPKCSOperation) (data : List Nat) :
    KResult Unit × RsaPKCSOperation :=
  if op.finalized then
    (Except.error (KError.RvError CKR_OPERATION_NOT_INITIALIZED), op)
  else if ¬ op.in_use then
    if op.mech = CKM_RSA_PKCS then
      (Except.error (KError.RvError CKR_OPERATION_NOT_INITIALIZED), op)
    else
      (Except.ok (),
       { op with in_use := true,
                 sigbuf := some ((op.sigbuf.getD []) ++ data) })
  else
    (Except.ok (), { op with sigbuf := some ((op.sigbuf.getD []) ++ data) })

/-- `Sign::sign_final`. -/
def RsaPKCSOperation.sign_final (prov : RsaProvider) (op : RsaPKCSOperation) :
    KResult (List Nat) × RsaPKCSOperation :=
  if ¬ op.in_use then
    (Except.error (KError.RvError CKR_OPERATION_NOT_INITIALIZED), op)
  else if op.finalized then
    (Except.error (KError.RvError CKR_OPERATION_NOT_INITIALIZED), op)
  else
    let op1 := { op with finalized := true }
    match prov.digestSign (op.sigbuf.getD []) with
    | Except.error _ => (Except.error (KError.RvError CKR_DEVICE_ERROR), op1)
    | Except.ok s => (Except.ok s, op1)

/-- `Sign::sign` (one-shot); `sigLen` is the caller's signature buffer
length. -/
def RsaPKCSOperation.sign (prov : RsaProvider) (op : RsaPKCSOperation)
    (data : List Nat) (sigLen : Nat) :
    KResult (List Nat) × RsaPKCSOperation :=
  if op.in_use then
    (Except.error (KError.RvError CKR_OPERATION_NOT_INITIALIZED), op)
  else if op.finalized then
    (Except.error (KError.RvError CKR_OPERATION_NOT_INITIALIZED), op)
  else if op.mech = CKM_RSA_PKCS then
    let op1 := { op with finalized := true }
    if data.length > op.max_input then
      (Except.error (KError.RvError CKR_DATA_LEN_RANGE), op1)
    else if sigLen ≠ op.output_len then
      (Except.error (KError.RvError CKR_GENERAL_ERROR), op1)
    else
      match prov.evpSign data with
      | Except.error _ =>
        (Except.error (KError.RvError CKR_DEVICE_ERROR), op1)
      | Except.ok s =>
        if sigLen ≠ s.length then
          (Except.error (KError.RvError CKR_GENERAL_ERROR), op1)
        else (Except.ok s, op1)
  else
    match RsaPKCSOperation.sign_update op data with
    | (Except.error e, op1) => (Except.error e, op1)
    | (Except.ok _, op1) => RsaPKCSOperation.sign_final prov op1

/-- `Verify::verify_update`. -/
def RsaPKCSOperation.verify_update (op : RsaPKCSOperation) (data : List Nat) :
    KResult Unit × RsaPKCSOperation :=
  if op.finalized then
    (Except.error (KError.RvError CKR_OPERATION_NOT_INITIALIZED), op)
  else if ¬ op.in_use then
    if op.mech = CKM_RSA_PKCS then
      (Except.error (KError.RvError CKR_OPERATION_NOT_INITIALIZED), op)
    else
      (Except.ok (),
       { op with in_use := true,
                 sigbuf := some ((op.sigbuf.getD []) ++ data) })
  else
    (Except.ok (), { op with sigbuf := some ((op.sigbuf.getD []) ++ data) })

/-- `Verify::verify_final`: delegates to the provider's
`digest_verify_final`, whose error code surfaces as-is. -/
def RsaPKCSOperation.verify_final (prov : RsaProvider) (op : RsaPKCSOperation)
    (signature : List Nat) : KResult Unit × RsaPKCSOperation :=
  if ¬ op.in_use then
    (Except.error (KError.RvError CKR_OPERATION_NOT_INITIALIZED), op)
  else if op.finalized then
    (Except.error (KError.RvError CKR_OPERATION_NOT_INITIALIZED), op)
  else
    let op1 := { op with finalized := true }
    match prov.digestVerify (op.sigbuf.getD []) signature with
    | Except.error rv => (Except.error (KError.RvError rv), op1)
    | Except.ok _ => (Except.ok (), op1)

/-- `Verify::verify` (one-shot).  In the raw `CKM_RSA_PKCS` arm the source
builds a context from the public key, calls `EVP_PKEY_verify_init` on it,
and then invokes `EVP_PKEY_sign` with the signature buffer as the output
pointer; the signature bytes are never compared. -/
def RsaPKCSOperation.verify (prov : RsaProvider) (op : RsaPKCSOperation)
    (data : List Nat) (signature : List Nat) :
    KResult Unit × RsaPKCSOperation :=
  if op.in_use then
    (Except.error (KError.RvError CKR_OPERATION_NOT_INITIALIZED), op)
  else if op.finalized then
    (Except.error (KError.RvError CKR_OPERATION_NOT_INITIALIZED), op)
  else if op.mech = CKM_RSA_PKCS then
    let op1 := { op with finalized := true }
    if data.length > op.max_input then
      (Except.error (KError.RvError CKR_DATA_LEN_RANGE), op1)
    else if signature.length ≠ op.output_len then
      (Except.error (KError.RvError CKR_GENERAL_ERROR), op1)
    else
      match prov.evpVerifyCtxSign data with
      | Except.error _ =>
        (Except.error (KError.RvError CKR_DEVICE_ERROR), op1)
      | Except.ok _ => (Except.ok (), op1)
  else
    match RsaPKCSOperation.verify_update op data with
    | (Except.error e, op1) => (Except.error e, op1)
    | (Except.ok _, op1) => RsaPKCSOperation.verify_final prov op1 signature

/-! ## EC-Montgomery keypair generation (`ec/montgomery.rs`).

`ECMontgomeryMechanism::generate_keypair` lines 213-261.  The factory step
`default_object_generate` (not among the sources) turns the two user
templates into object skeletons; the embedding takes those skeletons `pub0`
and `priv0` as inputs.  `ECMontgomeryOperation::generate_keypair` and
`default_key_attributes` are not among the sources either and are modelled
from the spec. -/

/-- Modelled from the spec: `Object::check_or_set_attr` is not among the
sources; per §4.5.3 a forced attribute is rejected when the user template
contradicts it, i.e. the call reports `true` when the attribute is absent
(and sets it) or present with an equal value, `false` otherwise. -/
def Object.check_or_set_attr (o : Object) (a : Attribute) : Bool × Object :=
  match o.findAttr a.typ with
  | some cur => (cur.value = a.value, o)
  | none => (true, o.set_attr a)

/-- Modelled from the spec: `ECMontgomeryOperation::generate_keypair` calls
the provider's curve keygen and populates `EC_POINT` on the public object
and `VALUE` on the private object; `pt` and `sk` are the provider's output
bytes. -/
def ecmKeygen (pt sk : List Nat) (pubkey privkey : Object) : Object × Object :=
  (pubkey.set_attr (Attribute.from_bytes CKA_EC_POINT pt),
   privkey.set_attr (Attribute.from_bytes CKA_VALUE sk))

/-- Modelled from the spec: `default_key_attributes` applies the mechanism
defaults, marking the key as produced by key-pair generation
(`CKA_LOCAL = true`). -/
def default_key_attributes (o : Object) : Object :=
  o.set_attr (Attribute.from_bool CKA_LOCAL true)

/-- `ECMontgomeryMechanism::generate_keypair` after the two
`default_object_generate` calls produced `pub0` and `priv0`. -/
def ECMontgomeryMechanism.generate_keypair (pt sk : List Nat)
    (pub0 priv0 : Object) : KResult (Object × Object) :=
  let rPc := pub0.check_or_set_attr (Attribute.from_ulong CKA_CLASS CKO_PUBLIC_KEY)
  if ¬ rPc.1 then Except.error (KError.RvError CKR_TEMPLATE_INCONSISTENT)
  else
    let rPk := rPc.2.check_or_set_attr
      (Attribute.from_ulong CKA_KEY_TYPE CKK_EC_EDWARDS)
    if ¬ rPk.1 then Except.error (KError.RvError CKR_TEMPLATE_INCONSISTENT)
    else
      let rVc := priv0.check_or_set_attr
        (Attribute.from_ulong CKA_CLASS CKO_PRIVATE_KEY)
      if ¬ rVc.1 then Except.error (KError.RvError CKR_TEMPLATE_INCONSISTENT)
      else
        let rVk := rVc.2.check_or_set_attr
          (Attribute.from_ulong CKA_KEY_TYPE CKK_EC_EDWARDS)
        if ¬ rVk.1 then Except.error (KError.RvError CKR_TEMPLATE_INCONSISTENT)
        else
          match rPk.2.get_attr_as_bytes CKA_EC_PARAMS with
          | Except.error _ =>
            Except.error (KError.RvError CKR_ATTRIBUTE_VALUE_INVALID)
          | Except.ok ec_params =>
            let rEp := rVk.2.check_or_set_attr
              (Attribute.from_bytes CKA_EC_PARAMS ec_params)
            if ¬ rEp.1 then
              Except.error (KError.RvError CKR_TEMPLATE_INCONSISTENT)
            else
              let gk := ecmKeygen pt sk rPk.2 rEp.2
              let priv5 := default_key_attributes gk.2
              let pub4 := default_key_attributes gk.1
              Except.ok (pub4, priv5)

/-! ## Storage (`storage/json.rs`).

The in-memory cache backend (`storage/memory.rs`, not among the sources) is
modelled from the spec as a map `uid → Object` kept as an association list:
`store` replaces-or-appends by uid, `remove_by_uid` drops the uid, `search`
returns the objects matching the template (an empty template matches
everything).  File writes are modelled by returning the serialized
`JsonToken` that `flush` would write. -/

inductive JVal where
  | bool (b : Bool)
  | num (n : Nat)
  | str (bytes : List Nat)
  | b64 (bytes : List Nat)
  | null
  deriving DecidableEq, Repr

/-- `to_json_value`.  The string case passes the raw UTF-8 bytes through on
success (`Attribute::to_string`, modelled from the spec), falling back to
base64; the date case is a date string or empty. -/
def to_json_value (a : Attribute) : JVal :=
  match a.atype with
  | AttrType.BoolType =>
    match a.to_bool with
    | Except.ok b => JVal.bool b
    | Except.error _ => JVal.null
  | AttrType.NumType =>
    match a.to_ulong with
    | Except.ok l => JVal.num l
    | Except.error _ => JVal.null
  | AttrType.StringType =>
    match a.to_string_bytes with
    | Except.ok s => JVal.str s
    | Except.error _ => JVal.b64 a.get_value
  | AttrType.BytesType => JVal.b64 a.get_value
  | AttrType.DateType => JVal.str a.get_value
  | AttrType.IgnoreType => JVal.null
  | AttrType.DenyType => JVal.null

/-- `JsonObject`: the serialized attribute map; the attribute's textual
`name()` is modelled by its numeric id. -/
structure JsonObject where
  attributes : List (Nat × JVal)
  deriving DecidableEq, Repr

/-- `JsonObject::from_object`. -/
def JsonObject.from_object (o : Object) : JsonObject :=
  ⟨o.attributes.map (fun a => (a.get_type, to_json_value a))⟩

structure JsonToken where
  objects : List JsonObject
  deriving DecidableEq, Repr

/-- The in-memory cache: `uid → Object` as an association list. -/
abbrev Cache := List (String × Object)

/-- Modelled from the spec: `memory.rs` `store` (replace-or-append by uid). -/
def cacheStore : Cache → String → Object → Cache
  | [], uid, obj => [(uid, obj)]
  | (u, o) :: rest, uid, obj =>
    if u = uid then (uid, obj) :: rest else (u, o) :: cacheStore rest uid obj

/-- Modelled from the spec: `memory.rs` `remove_by_uid`. -/
def cacheRemove : Cache → String → Cache
  | [], _ => []
  | (u, o) :: rest, uid =>
    if u = uid then cacheRemove rest uid else (u, o) :: cacheRemove rest uid

/-- Modelled from the spec: `memory.rs` `search` filters the cached objects
by `Object::match_template`. -/
def cacheSearch (c : Cache) (template : List Attribute) : List Object :=
  (c.map (fun p => p.2)).filter (fun o => o.match_template template)

/-- The loop of `JsonToken::from_cache` over `cache.search(&[])`, skipping
every object whose `TOKEN` attribute is not true. -/
def fromCacheLoop : List Object → List JsonObject
  | [] => []
  | o :: rest =>
    if ¬ o.is_token then fromCacheLoop rest
    else JsonObject.from_object o :: fromCacheLoop rest

/-- `JsonToken::from_cache`. -/
def JsonToken.from_cache (c : Cache) : JsonToken :=
  ⟨fromCacheLoop (cacheSearch c [])⟩

structure JsonStorage where
  cache : Cache

/-- `JsonStorage::flush`: serialize the cache; the returned `JsonToken` is
what `save` writes to the file. -/
def JsonStorage.flush (st : JsonStorage) : JsonStorage × JsonToken :=
  (st, JsonToken.from_cache st.cache)

/-- `JsonStorage::store`: mutate the cache, then flush. -/
def JsonStorage.store (st : JsonStorage) (uid : String) (obj : Object) :
    JsonStorage × JsonToken :=
  let st1 : JsonStorage := ⟨cacheStore st.cache uid obj⟩
  st1.flush

/-- `JsonStorage::remove_by_uid`: mutate the cache, then flush. -/
def JsonStorage.remove_by_uid (st : JsonStorage) (uid : String) :
    JsonStorage × JsonToken :=
  let st1 : JsonStorage := ⟨cacheRemove st.cache uid⟩
  st1.flush

/-! # Theorems -/

/-! ## `fill_template` (claims C2, C4) -/

/-- The error code an entry records, if any: sensitivity, then a missing
attribute, then a too-small buffer. -/
def entryError (o : Object) (sense : Option (List Nat)) (e : CkAttrIn) :
    Option Nat :=
  let found : Option Nat :=
    match o.findAttr e.type_ with
    | none => some CKR_ATTRIBUTE_TYPE_INVALID
    | some a =>
      match e.pValue with
      | none => none
      | some cap =>
        if cap < a.get_value.length then some CKR_BUFFER_TOO_SMALL else none
  match sense with
  | some s =>
    if o.is_sensitive_attr e.type_ s then some CKR_ATTRIBUTE_SENSITIVE else found
  | none => found

theorem fillEntry_fst_const (o : Object) (sense : Option (List Nat))
    (e : CkAttrIn) (rv : Nat) :
    (fillEntry o sense e rv).1 = (fillEntry o sense e CKR_OK).1 := by
  unfold fillEntry
  cases sense <;> cases h : o.findAttr e.type_ <;> cases hp : e.pValue <;>
    dsimp only [] <;>
    first
      | rfl
      | (split <;> first
          | rfl
          | (split <;> rfl))

theorem fillEntry_snd_eq (o : Object) (sense : Option (List Nat))
    (e : CkAttrIn) (rv : Nat) :
    (fillEntry o sense e rv).2 = (entryError o sense e).getD rv := by
  unfold fillEntry entryError
  cases sense <;> cases h : o.findAttr e.type_ <;> cases hp : e.pValue <;>
    dsimp only [] <;>
    first
      | rfl
      | (split <;> first
          | rfl
          | (split <;> rfl))

theorem fillLoop_fst (o : Object) (sense : Option (List Nat))
    (tpl : List CkAttrIn) (rv : Nat) :
    (fillLoop o sense tpl rv).1 =
      tpl.map (fun e => (fillEntry o sense e CKR_OK).1) := by
  induction tpl generalizing rv with
  | nil => rfl
  | cons e rest ih =>
    simp only [fillLoop, List.map_cons, ih, fillEntry_fst_const]

theorem fillLoop_snd (o : Object) (sense : Option (List Nat))
    (tpl : List CkAttrIn) (rv : Nat) :
    (fillLoop o sense tpl rv).2 =
      ((tpl.filterMap (entryError o sense)).getLast?).getD rv := by
  induction tpl generalizing rv with
  | nil => rfl
  | cons e rest ih =>
    simp only [fillLoop, List.filterMap_cons]
    cases h : entryError o sense e with
    | none => simp [ih, fillEntry_snd_eq, h]
    | some c =>
      simp only [ih, fillEntry_snd_eq, h, Option.getD_some]
      cases hl2 : rest.filterMap (entryError o sense) with
      | nil => simp
      | cons d l2 =>
        rw [List.getLast?_cons_cons,
          List.getLast?_eq_getLast_of_ne_nil (List.cons_ne_nil d l2)]
        simp

theorem entryError_ne_ok (o : Object) (sense : Option (List Nat))
    (e : CkAttrIn) (c : Nat) (h : entryError o sense e = some c) :
    c ≠ CKR_OK := by
  unfold entryError at h
  cases sense <;> dsimp only [] at h
  case none =>
    cases hf : o.findAttr e.type_ <;> rw [hf] at h <;> dsimp only [] at h
    · cases h; decide
    · cases hp : e.pValue <;> rw [hp] at h <;> dsimp only [] at h
      · cases h
      · split at h
        · cases h; decide
        · cases h
  case some s =>
    split at h
    · cases h; decide
    · cases hf : o.findAttr e.type_ <;> rw [hf] at h <;> dsimp only [] at h
      · cases h; decide
      · cases hp : e.pValue <;> rw [hp] at h <;> dsimp only [] at h
        · cases h
        · split at h
          · cases h; decide
          · cases h

theorem is_sensitive_attr_of_mem (o : Object) (id : Nat) (s : List Nat)
    (hmem : id ∈ s) (hcond : o.is_sensitive = true ∨ o.is_extractable = false) :
    o.is_sensitive_attr id s = true := by
  unfold Object.is_sensitive_attr
  have hc : s.contains id = true := by simpa using hmem
  rcases hcond with h | h <;> simp [hc, h, hmem]

/-- C2.  For an object in a sensitivity regime (its key type has a sensitive
attribute set) and an attribute id in that set, when the object is sensitive
or not extractable, `fill_template` writes no value bytes for that entry,
reports its length as `CK_UNAVAILABLE_INFORMATION`, and the entry records
`CKR_ATTRIBUTE_SENSITIVE`. -/
theorem fill_template_hides_sensitive (o : Object) (s : List Nat)
    (tpl : List CkAttrIn) (i : Nat) (e : CkAttrIn)
    (hs : o.needs_sensitivity_check = some s)
    (hi : tpl[i]? = some e)
    (hmem : e.type_ ∈ s)
    (hcond : o.is_sensitive = true ∨ o.is_extractable = false) :
    (o.fill_template tpl).1[i]? =
      some ⟨CK_UNAVAILABLE_INFORMATION, none⟩ ∧
    ∀ rv, (fillEntry o (some s) e rv).2 = CKR_ATTRIBUTE_SENSITIVE := by
  have hattr : o.is_sensitive_attr e.type_ s = true :=
    is_sensitive_attr_of_mem o e.type_ s hmem hcond
  constructor
  · unfold Object.fill_template
    simp only [hs, fillLoop_fst]
    rw [List.getElem?_map, hi]
    simp [fillEntry, hattr]
  · intro rv
    simp [fillEntry, hattr]

/-- C2 witness: a sensitive generic-secret key object hides `CKA_VALUE`. -/
def witSecretObj : Object :=
  ⟨1, [Attribute.from_ulong CKA_CLASS CKO_SECRET_KEY,
       Attribute.from_ulong CKA_KEY_TYPE CKK_GENERIC_SECRET,
       Attribute.from_bytes CKA_VALUE [1, 2, 3]]⟩

theorem fill_template_hides_sensitive_witness :
    (witSecretObj.fill_template [⟨CKA_VALUE, some 16⟩]).1[0]? =
      some ⟨CK_UNAVAILABLE_INFORMATION, none⟩ ∧
    ∀ rv,
      (fillEntry witSecretObj (some SENSITIVE_CKK_GENERIC_SECRET)
        ⟨CKA_VALUE, some 16⟩ rv).2 = CKR_ATTRIBUTE_SENSITIVE :=
  fill_template_hides_sensitive witSecretObj SENSITIVE_CKK_GENERIC_SECRET
    [⟨CKA_VALUE, some 16⟩] 0 ⟨CKA_VALUE, some 16⟩ (by decide) (by decide)
    (by decide) (Or.inl (by decide))

/-- C4 counterexample: a template whose first entry records
`CKR_ATTRIBUTE_SENSITIVE` and whose second entry records
`CKR_ATTRIBUTE_TYPE_INVALID` makes `fill_template` return the LATER error,
not the earliest-recorded one nor the sensitivity-first priority order the
claim states. -/
theorem fill_template_priority_counterexample :
    (witSecretObj.fill_template
        [⟨CKA_VALUE, some 16⟩, ⟨CKA_LABEL, some 16⟩]).2 =
      Except.error (KError.RvError CKR_ATTRIBUTE_TYPE_INVALID) ∧
    CKR_ATTRIBUTE_TYPE_INVALID ≠ CKR_ATTRIBUTE_SENSITIVE ∧
    entryError witSecretObj (some SENSITIVE_CKK_GENERIC_SECRET)
        ⟨CKA_VALUE, some 16⟩ = some CKR_ATTRIBUTE_SENSITIVE := by
  refine ⟨?_, by decide, by decide⟩
  decide

/-- C4 (amended).  `fill_template` processes every template entry, later
entries still being processed after an earlier entry records an error
(the outputs are the independent per-entry outcomes); it returns `Ok` when
no entry records an error, and otherwise the error code of the LAST entry
that recorded one (each new error overwrites the running code; there is no
priority order among the error kinds). -/
theorem fill_template_reports_last_error (o : Object) (tpl : List CkAttrIn) :
    (o.fill_template tpl).1 =
      tpl.map (fun e =>
        (fillEntry o o.needs_sensitivity_check e CKR_OK).1) ∧
    (o.fill_template tpl).2 =
      (match (tpl.filterMap
          (entryError o o.needs_sensitivity_check)).getLast? with
       | none => Except.ok ()
       | some c => Except.error (KError.RvError c)) := by
  constructor
  · unfold Object.fill_template
    simp [fillLoop_fst]
  · unfold Object.fill_template
    simp only [fillLoop_snd]
    cases hl : (tpl.filterMap (entryError o o.needs_sensitivity_check)).getLast?
      with
    | none => simp [CKR_OK]
    | some c =>
      have hmem0 : c ∈ tpl.filterMap (entryError o o.needs_sensitivity_check) := by
        obtain ⟨hne, hEq⟩ :=
          List.mem_getLast?_eq_getLast (Option.mem_def.mpr hl)
        rw [hEq]
        exact List.getLast_mem hne
      obtain ⟨e, _, he⟩ := List.mem_filterMap.mp hmem0
      have : c ≠ CKR_OK := entryError_ne_ok o _ e c he
      simp [this]

/-! ## HMAC correctness (claims C1, C6) -/

/-- `K0` as the spec words it: right-pad the key with zeros to the block
length `B` when `|key| ≤ B`, otherwise zero-pad `H(key)` to `B`. -/
def K0spec (H : List Nat → List Nat) (B : Nat) (key : List Nat) : List Nat :=
  if key.length ≤ B then key ++ List.replicate (B - key.length) 0
  else H key ++ List.replicate (B - (H key).length) 0

/-- The HMAC formula of FIPS 198-1 as the spec words it:
`H((K0 ⊕ opad) ‖ H((K0 ⊕ ipad) ‖ data))`, truncated to `t` bytes. -/
def hmacSpec (H : List Nat → List Nat) (B : Nat) (key data : List Nat)
    (t : Nat) : List Nat :=
  let k0 := K0spec H B key
  let ipadKey := List.zipWith (fun a b => a ^^^ b) k0 (List.replicate B 0x36)
  let opadKey := List.zipWith (fun a b => a ^^^ b) k0 (List.replicate B 0x5c)
  (H (opadKey ++ H (ipadKey ++ data))).take t

theorem listResize_of_le (l : List Nat) (n v : Nat) (h : l.length ≤ n) :
    listResize l n v = l ++ List.replicate (n - l.length) v := by
  unfold listResize
  rw [List.take_of_length_le h]

theorem init_state_eq_K0spec (H : List Nat → List Nat) (B L mech : Nat)
    (key : List Nat) (t : Nat) (hH : (H key).length = L) (hLB : L ≤ B) :
    (HMACOperation.init H B L mech key t).state = K0spec H B key := by
  unfold HMACOperation.init K0spec
  by_cases h : key.length ≤ B
  · simp only [h, if_true]
    exact listResize_of_le key B 0 h
  · simp only [h, if_false]
    rw [listResize_of_le (H key) B 0 (by rw [hH]; exact hLB)]

theorem signUpdates_running (ds : List (List Nat)) :
    ∀ (op : HMACOperation), op.finalized = false → op.in_use = true →
    HMACOperation.signUpdates op ds =
      (Except.ok (), { op with innerBuf := op.innerBuf ++ ds.flatten }) := by
  induction ds with
  | nil =>
    intro op hf hu
    simp [HMACOperation.signUpdates]
  | cons d ds2 ih =>
    intro op hf hu
    obtain ⟨m, hl, bl, ol, st, ip, od, ib, fz, iu⟩ := op
    simp only at hf hu
    subst hf; subst hu
    simp only [HMACOperation.signUpdates, HMACOperation.sign_update,
      Bool.false_eq_true, if_false, HMACOperation.update]
    rw [ih ⟨m, hl, bl, ol, st, ip, od, ib ++ d, false, true⟩ rfl rfl]
    simp [List.append_assoc]

theorem signUpdates_fresh (op : HMACOperation) (d : List Nat)
    (ds2 : List (List Nat)) (hf : op.finalized = false) :
    HMACOperation.signUpdates op (d :: ds2) =
      (Except.ok (),
       { op with in_use := true,
                 innerBuf := op.innerBuf ++ (d :: ds2).flatten }) := by
  obtain ⟨m, hl, bl, ol, st, ip, od, ib, fz, iu⟩ := op
  simp only at hf
  subst hf
  simp only [HMACOperation.signUpdates, HMACOperation.sign_update,
    Bool.false_eq_true, if_false, HMACOperation.update]
  rw [signUpdates_running ds2 ⟨m, hl, bl, ol, st, ip, od, ib ++ d, false, true⟩
    rfl rfl]
  simp [List.append_assoc]

/-- C1.  Driving the HMAC sign operation through `init` (with its `K0`
derivation), any non-empty sequence of `sign_update` calls and `sign_final`
with a signature buffer of the requested output length `t` succeeds and
produces exactly `H((K0 ⊕ opad) ‖ H((K0 ⊕ ipad) ‖ D))` truncated to `t`,
where `D` is the concatenation of the updates, for any hash of hash length
`L ≤ B`. -/
theorem hmac_sign_matches_fips198
    (H : List Nat → List Nat) (B L mech : Nat) (key : List Nat) (t : Nat)
    (ds : List (List Nat))
    (hH : ∀ x, (H x).length = L) (hLB : L ≤ B) (hds : ds ≠ []) :
    (HMACOperation.signUpdates (HMACOperation.init H B L mech key t) ds).1 =
      Except.ok () ∧
    (HMACOperation.sign_final H
        (HMACOperation.signUpdates
          (HMACOperation.init H B L mech key t) ds).2 t).1 =
      Except.ok (hmacSpec H B key ds.flatten t) := by
  obtain ⟨d, ds2, rfl⟩ : ∃ d ds2, ds = d :: ds2 := by
    cases ds with
    | nil => exact absurd rfl hds
    | cons d ds2 => exact ⟨d, ds2, rfl⟩
  rw [signUpdates_fresh _ _ _ rfl]
  refine ⟨rfl, ?_⟩
  simp only [HMACOperation.sign_final]
  have hxor : ∀ c : Nat, ∀ l1 l2 : List Nat,
      List.zipWith (fun i1 i2 => i1 ^^^ i2) l1 l2 =
        List.zipWith (fun i1 i2 => i1 ^^^ i2) l2 l1 :=
    fun c l1 l2 => List.zipWith_comm_of_comm _ Nat.xor_comm l1 l2
  have hstate : (HMACOperation.init H B L mech key t).state = K0spec H B key :=
    init_state_eq_K0spec H B L mech key t (hH key) hLB
  simp only [HMACOperation.init] at hstate ⊢
  simp only [hstate, HMACOperation.finalize, hmacSpec]
  rw [hxor 0 (K0spec H B key) (List.replicate B 0x36),
    hxor 0 (K0spec H B key) (List.replicate B 0x5c)]
  simp

/-- A small concrete hash for the C1 witness: two bytes, so `L = 2`. -/
def witHash (x : List Nat) : List Nat :=
  [x.length % 256, (x.foldl (fun a b => a + b) 0) % 256]

theorem hmac_sign_matches_fips198_witness :
    (HMACOperation.signUpdates
        (HMACOperation.init witHash 4 2 CKM_SHA256_HMAC [1, 2, 3, 4, 5] 2)
        [[1], [2, 3]]).1 = Except.ok () ∧
    (HMACOperation.sign_final witHash
        (HMACOperation.signUpdates
          (HMACOperation.init witHash 4 2 CKM_SHA256_HMAC [1, 2, 3, 4, 5] 2)
          [[1], [2, 3]]).2 2).1 =
      Except.ok (hmacSpec witHash 4 [1, 2, 3, 4, 5] [[1], [2, 3]].flatten 2) :=
  hmac_sign_matches_fips198 witHash 4 2 CKM_SHA256_HMAC [1, 2, 3, 4, 5] 2
    [[1], [2, 3]] (fun x => rfl) (by decide) (by decide)

/-- C6 counterexample input: a running HMAC verify operation with `t = 2`. -/
def c6op : HMACOperation :=
  (HMACOperation.verify_update
    (HMACOperation.init witHash 4 2 CKM_SHA256_HMAC [9] 2) [1]).2

/-- C6 counterexample: giving `verify_final` a signature whose length
differs from the requested output length fails with `CKR_GENERAL_ERROR`,
not `CKR_SIGNATURE_INVALID` as the claim states. -/
theorem hmac_verify_final_length_counterexample :
    (HMACOperation.verify_final witHash c6op [1, 2, 3]).1 =
      Except.error (KError.RvError CKR_GENERAL_ERROR) ∧
    CKR_GENERAL_ERROR ≠ CKR_SIGNATURE_INVALID :=
  ⟨by decide, by decide⟩

/-- C6 (amended).  `verify_final` recomputes the MAC into a scratch buffer
and compares it byte-equal with the provided signature; a signature whose
length differs from the requested output length `t` fails with
`GeneralError`, an equal-length signature with unequal bytes fails with
`SignatureInvalid`, and the matching signature verifies. -/
theorem hmac_verify_final_checks (H : List Nat → List Nat)
    (op : HMACOperation) (sig : List Nat)
    (hu : op.in_use = true) (hf : op.finalized = false) :
    (sig.length ≠ op.outputlen →
      (HMACOperation.verify_final H op sig).1 =
        Except.error (KError.RvError CKR_GENERAL_ERROR)) ∧
    (sig.length = op.outputlen →
      sig ≠ (H (op.opad ++ H op.innerBuf)).take op.outputlen →
      (HMACOperation.verify_final H op sig).1 =
        Except.error (KError.RvError CKR_SIGNATURE_INVALID)) ∧
    (sig.length = op.outputlen →
      sig = (H (op.opad ++ H op.innerBuf)).take op.outputlen →
      (HMACOperation.verify_final H op sig).1 = Except.ok ()) := by
  refine ⟨fun hlen => ?_, fun hlen hne => ?_, fun hlen hEq => ?_⟩
  · simp [HMACOperation.verify_final, hu, hf, hlen]
  · simp [HMACOperation.verify_final, HMACOperation.finalize, hu, hf, hlen,
      Ne.symm hne]
  · simp [HMACOperation.verify_final, HMACOperation.finalize, hu, hf, hlen,
      hEq.symm]

theorem hmac_verify_final_checks_witness :
    ((([1, 2] : List Nat).length ≠ c6op.outputlen →
      (HMACOperation.verify_final witHash c6op [1, 2]).1 =
        Except.error (KError.RvError CKR_GENERAL_ERROR)) ∧
    (([1, 2] : List Nat).length = c6op.outputlen →
      ([1, 2] : List Nat) ≠
        (witHash (c6op.opad ++ witHash c6op.innerBuf)).take c6op.outputlen →
      (HMACOperation.verify_final witHash c6op [1, 2]).1 =
        Except.error (KError.RvError CKR_SIGNATURE_INVALID)) ∧
    (([1, 2] : List Nat).length = c6op.outputlen →
      ([1, 2] : List Nat) =
        (witHash (c6op.opad ++ witHash c6op.innerBuf)).take c6op.outputlen →
      (HMACOperation.verify_final witHash c6op [1, 2]).1 = Except.ok ())) :=
  hmac_verify_final_checks witHash c6op [1, 2] (by decide) (by decide)

/-! ## Operation state machine (claim C5) -/

/-- C5.  For every concrete operation — HMAC or RSA, sign, verify, encrypt
or decrypt — once the `finalized` flag is set, every subsequent one-shot,
update or final call fails with `CKR_OPERATION_NOT_INITIALIZED`, and the
operation is still finalized afterwards. -/
theorem finalized_state_is_terminal :
    (∀ (H : List Nat → List Nat) (op : HMACOperation) (d sig : List Nat)
        (n : Nat), op.finalized = true →
      ((HMACOperation.sign H op d n).1 =
          Except.error (KError.RvError CKR_OPERATION_NOT_INITIALIZED) ∧
        (HMACOperation.sign H op d n).2.finalized = true) ∧
      ((HMACOperation.sign_update op d).1 =
          Except.error (KError.RvError CKR_OPERATION_NOT_INITIALIZED) ∧
        (HMACOperation.sign_update op d).2.finalized = true) ∧
      ((HMACOperation.sign_final H op n).1 =
          Except.error (KError.RvError CKR_OPERATION_NOT_INITIALIZED) ∧
        (HMACOperation.sign_final H op n).2.finalized = true) ∧
      ((HMACOperation.verify H op d sig).1 =
          Except.error (KError.RvError CKR_OPERATION_NOT_INITIALIZED) ∧
        (HMACOperation.verify H op d sig).2.finalized = true) ∧
      ((HMACOperation.verify_update op d).1 =
          Except.error (KError.RvError CKR_OPERATION_NOT_INITIALIZED) ∧
        (HMACOperation.verify_update op d).2.finalized = true) ∧
      ((HMACOperation.verify_final H op sig).1 =
          Except.error (KError.RvError CKR_OPERATION_NOT_INITIALIZED) ∧
        (HMACOperation.verify_final H op sig).2.finalized = true)) ∧
    (∀ (prov : RsaProvider) (op : RsaPKCSOperation) (d sig : List Nat)
        (buf : Option Nat) (n : Nat), op.finalized = true →
      ((RsaPKCSOperation.encrypt prov op d buf).1 =
          Except.error (KError.RvError CKR_OPERATION_NOT_INITIALIZED) ∧
        (RsaPKCSOperation.encrypt prov op d buf).2.finalized = true) ∧
      ((RsaPKCSOperation.encrypt_update op).1 =
          Except.error (KError.RvError CKR_OPERATION_NOT_INITIALIZED) ∧
        (RsaPKCSOperation.encrypt_update op).2.finalized = true) ∧
      ((RsaPKCSOperation.encrypt_final op).1 =
          Except.error (KError.RvError CKR_OPERATION_NOT_INITIALIZED) ∧
        (RsaPKCSOperation.encrypt_final op).2.finalized = true) ∧
      ((RsaPKCSOperation.decrypt prov op d buf).1 =
          Except.error (KError.RvError CKR_OPERATION_NOT_INITIALIZED) ∧
        (RsaPKCSOperation.decrypt prov op d buf).2.finalized = true) ∧
      ((RsaPKCSOperation.decrypt_update op).1 =
          Except.error (KError.RvError CKR_OPERATION_NOT_INITIALIZED) ∧
        (RsaPKCSOperation.decrypt_update op).2.finalized = true) ∧
      ((RsaPKCSOperation.decrypt_final op).1 =
          Except.error (KError.RvError CKR_OPERATION_NOT_INITIALIZED) ∧
        (RsaPKCSOperation.decrypt_final op).2.finalized = true) ∧
      ((RsaPKCSOperation.sign prov op d n).1 =
          Except.error (KError.RvError CKR_OPERATION_NOT_INITIALIZED) ∧
        (RsaPKCSOperation.sign prov op d n).2.finalized = true) ∧
      ((RsaPKCSOperation.sign_update op d).1 =
          Except.error (KError.RvError CKR_OPERATION_NOT_INITIALIZED) ∧
        (RsaPKCSOperation.sign_update op d).2.finalized = true) ∧
      ((RsaPKCSOperation.sign_final prov op).1 =
          Except.error (KError.RvError CKR_OPERATION_NOT_INITIALIZED) ∧
        (RsaPKCSOperation.sign_final prov op).2.finalized = true) ∧
      ((RsaPKCSOperation.verify prov op d sig).1 =
          Except.error (KError.RvError CKR_OPERATION_NOT_INITIALIZED) ∧
        (RsaPKCSOperation.verify prov op d sig).2.finalized = true) ∧
      ((RsaPKCSOperation.verify_update op d).1 =
          Except.error (KError.RvError CKR_OPERATION_NOT_INITIALIZED) ∧
        (RsaPKCSOperation.verify_update op d).2.finalized = true) ∧
      ((RsaPKCSOperation.verify_final prov op sig).1 =
          Except.error (KError.RvError CKR_OPERATION_NOT_INITIALIZED) ∧
        (RsaPKCSOperation.verify_final prov op sig).2.finalized = true)) := by
  constructor
  · intro H op d sig n hf
    by_cases hu : op.in_use <;>
      simp [HMACOperation.sign, HMACOperation.sign_update,
        HMACOperation.sign_final, HMACOperation.verify,
        HMACOperation.verify_update, HMACOperation.verify_final,
        HMACOperation.update, hf, hu]
  · intro prov op d sig buf n hf
    by_cases hu : op.in_use <;>
      simp [RsaPKCSOperation.encrypt, RsaPKCSOperation.encrypt_update,
        RsaPKCSOperation.encrypt_final, RsaPKCSOperation.decrypt,
        RsaPKCSOperation.decrypt_update, RsaPKCSOperation.decrypt_final,
        RsaPKCSOperation.sign, RsaPKCSOperation.sign_update,
        RsaPKCSOperation.sign_final, RsaPKCSOperation.verify,
        RsaPKCSOperation.verify_update, RsaPKCSOperation.verify_final,
        hf, hu]

/-! ## RSA verify bug and key-size gate (claims C3, C8) -/

/-- A concrete provider for evaluating the RSA paths: deterministic outputs,
and a `digest_verify_final` that accepts exactly the signature the provider
itself produces. -/
def cProv : RsaProvider :=
  { pubImport := Except.ok ()
    privImport := Except.ok ()
    evpEncrypt := fun _ => Except.ok (List.replicate 32 1)
    evpDecrypt := fun _ => Except.ok [1, 2, 3]
    evpSign := fun _ => Except.ok (List.replicate 32 9)
    evpVerifyCtxSign := fun _ => Except.ok (List.replicate 32 2)
    digestSign := fun _ => Except.ok (List.replicate 32 3)
    digestVerify := fun _ s =>
      if s = List.replicate 32 3 then Except.ok ()
      else Except.error CKR_SIGNATURE_INVALID }

/-- A key object carrying a 32-byte modulus. -/
def c3key : Object :=
  ⟨2, [Attribute.from_bytes CKA_MODULUS (List.replicate 32 7)]⟩

/-- The operation `verify_new` builds from `c3key` for raw `CKM_RSA_PKCS`. -/
def c3op : RsaPKCSOperation :=
  { mech := CKM_RSA_PKCS, max_input := 21, output_len := 32,
    finalized := false, in_use := false, sigbuf := none }

/-- C3.  The raw `CKM_RSA_PKCS` one-shot verify path never compares the
signature: on the operation `verify_new` builds, two different 32-byte
signatures — one of which could be the valid one — produce the very same
result, which is not `CKR_SIGNATURE_INVALID`; the path calls the provider's
sign primitive on the verify context and cannot reject a mismatched
signature. -/
theorem rsa_raw_verify_ignores_signature :
    RsaPKCSOperation.verify_new cProv ⟨CKM_RSA_PKCS, 0, 0⟩ c3key ⟨0, 0, 0⟩ =
      Except.ok c3op ∧
    (List.replicate 32 0 : List Nat) ≠ 1 :: List.replicate 31 0 ∧
    RsaPKCSOperation.verify cProv c3op [5, 6] (List.replicate 32 0) =
      RsaPKCSOperation.verify cProv c3op [5, 6] (1 :: List.replicate 31 0) ∧
    (RsaPKCSOperation.verify cProv c3op [5, 6] (List.replicate 32 0)).1 ≠
      Except.error (KError.RvError CKR_SIGNATURE_INVALID) :=
  ⟨by decide, by decide, by decide, by decide⟩

/-- A finalized HMAC operation, for the C5 witness. -/
def opFin : HMACOperation := { c6op with finalized := true }

/-- A finalized RSA operation, for the C5 witness. -/
def rsaFin : RsaPKCSOperation := { c3op with finalized := true }

theorem finalized_state_is_terminal_witness :
    ((HMACOperation.sign witHash opFin [1] 2).1 =
        Except.error (KError.RvError CKR_OPERATION_NOT_INITIALIZED) ∧
      (HMACOperation.sign witHash opFin [1] 2).2.finalized = true) ∧
    ((RsaPKCSOperation.sign cProv rsaFin [1] 32).1 =
        Except.error (KError.RvError CKR_OPERATION_NOT_INITIALIZED) ∧
      (RsaPKCSOperation.sign cProv rsaFin [1] 32).2.finalized = true) :=
  ⟨(finalized_state_is_terminal.1 witHash opFin [1] [2] 2 rfl).1,
   (finalized_state_is_terminal.2 cProv rsaFin [1] [2] none 32
      rfl).2.2.2.2.2.2.1⟩

theorem get_digest_name_error (m : Nat) (e : KError)
    (h : get_digest_name m = Except.error e) :
    e = KError.RvError CKR_GENERAL_ERROR := by
  unfold get_digest_name at h
  split at h
  · simp at h
  · split at h
    · simp at h
    · exact (Except.error.inj h).symm

theorem keySizeBad_iff (n : Nat) (info : MechInfo) :
    keySizeBad n info = true ↔
      (n * 8 < info.ulMinKeySize ∨
        (info.ulMaxKeySize ≠ 0 ∧ n * 8 > info.ulMaxKeySize)) := by
  simp [keySizeBad]

theorem encrypt_new_ksr_iff (prov : RsaProvider) (mech : CkMech)
    (key : Object) (info : MechInfo) (m : List Nat)
    (hm : key.get_attr_as_bytes CKA_MODULUS = Except.ok m) :
    RsaPKCSOperation.encrypt_new prov mech key info =
        Except.error (KError.RvError CKR_KEY_SIZE_RANGE) ↔
      keySizeBad m.length info = true := by
  unfold RsaPKCSOperation.encrypt_new
  rw [hm]
  show (if keySizeBad m.length info then _ else _) = _ ↔ _
  by_cases hks : keySizeBad m.length info
  · simp [hks]
  · simp only [hks, Bool.false_eq_true, if_false, iff_false]
    split
    · simp [CKR_MECHANISM_INVALID, CKR_KEY_SIZE_RANGE]
    · cases hp : prov.pubImport <;> simp [CKR_DEVICE_ERROR, CKR_KEY_SIZE_RANGE]

theorem decrypt_new_ksr_iff (prov : RsaProvider) (mech : CkMech)
    (key : Object) (info : MechInfo) (m : List Nat)
    (hm : key.get_attr_as_bytes CKA_MODULUS = Except.ok m) :
    RsaPKCSOperation.decrypt_new prov mech key info =
        Except.error (KError.RvError CKR_KEY_SIZE_RANGE) ↔
      keySizeBad m.length info = true := by
  unfold RsaPKCSOperation.decrypt_new
  rw [hm]
  show (if keySizeBad m.length info then _ else _) = _ ↔ _
  by_cases hks : keySizeBad m.length info
  · simp [hks]
  · simp only [hks, Bool.false_eq_true, if_false, iff_false]
    split
    · simp [CKR_MECHANISM_INVALID, CKR_KEY_SIZE_RANGE]
    · cases hp : prov.pubImport <;> cases hq : prov.privImport <;>
        simp [CKR_DEVICE_ERROR, CKR_KEY_SIZE_RANGE]

theorem sign_new_ksr_iff (prov : RsaProvider) (mech : CkMech)
    (key : Object) (info : MechInfo) (m : List Nat)
    (hm : key.get_attr_as_bytes CKA_MODULUS = Except.ok m) :
    RsaPKCSOperation.sign_new prov mech key info =
        Except.error (KError.RvError CKR_KEY_SIZE_RANGE) ↔
      keySizeBad m.length info = true := by
  unfold RsaPKCSOperation.sign_new
  rw [hm]
  show (if keySizeBad m.length info then _ else _) = _ ↔ _
  by_cases hks : keySizeBad m.length info
  · simp [hks]
  · simp only [hks, Bool.false_eq_true, if_false, iff_false]
    cases hp : prov.pubImport <;> cases hq : prov.privImport <;>
      simp [CKR_DEVICE_ERROR, CKR_KEY_SIZE_RANGE]
    cases hd : get_digest_name mech.mechanism with
    | error e =>
      have he := get_digest_name_error _ _ hd
      subst he
      simp [Except.bind, bind, CKR_GENERAL_ERROR, CKR_KEY_SIZE_RANGE]
    | ok v => simp [Except.bind, bind]

theorem verify_new_ksr_iff (prov : RsaProvider) (mech : CkMech)
    (key : Object) (info : MechInfo) (m : List Nat)
    (hm : key.get_attr_as_bytes CKA_MODULUS = Except.ok m) :
    RsaPKCSOperation.verify_new prov mech key info =
        Except.error (KError.RvError CKR_KEY_SIZE_RANGE) ↔
      keySizeBad m.length info = true := by
  unfold RsaPKCSOperation.verify_new
  rw [hm]
  show (if keySizeBad m.length info then _ else _) = _ ↔ _
  by_cases hks : keySizeBad m.length info
  · simp [hks]
  · simp only [hks, Bool.false_eq_true, if_false, iff_false]
    cases hp : prov.pubImport <;>
      simp [CKR_DEVICE_ERROR, CKR_KEY_SIZE_RANGE]
    cases hd : get_digest_name mech.mechanism with
    | error e =>
      have he := get_digest_name_error _ _ hd
      subst he
      simp [Except.bind, bind, CKR_GENERAL_ERROR, CKR_KEY_SIZE_RANGE]
    | ok v => simp [Except.bind, bind]

/-- C8.  Every RSA operation constructor, for a key whose `MODULUS`
attribute holds the bytes `m`, fails with `CKR_KEY_SIZE_RANGE` exactly when
`bits = |m| * 8` is below `ulMinKeySize`, or `ulMaxKeySize` is non-zero and
`bits` exceeds it. -/
theorem rsa_new_key_size_gate (prov : RsaProvider) (mech : CkMech)
    (key : Object) (info : MechInfo) (m : List Nat)
    (hm : key.get_attr_as_bytes CKA_MODULUS = Except.ok m) :
    (RsaPKCSOperation.encrypt_new prov mech key info =
        Except.error (KError.RvError CKR_KEY_SIZE_RANGE) ↔
      (m.length * 8 < info.ulMinKeySize ∨
        (info.ulMaxKeySize ≠ 0 ∧ m.length * 8 > info.ulMaxKeySize))) ∧
    (RsaPKCSOperation.decrypt_new prov mech key info =
        Except.error (KError.RvError CKR_KEY_SIZE_RANGE) ↔
      (m.length * 8 < info.ulMinKeySize ∨
        (info.ulMaxKeySize ≠ 0 ∧ m.length * 8 > info.ulMaxKeySize))) ∧
    (RsaPKCSOperation.sign_new prov mech key info =
        Except.error (KError.RvError CKR_KEY_SIZE_RANGE) ↔
      (m.length * 8 < info.ulMinKeySize ∨
        (info.ulMaxKeySize ≠ 0 ∧ m.length * 8 > info.ulMaxKeySize))) ∧
    (RsaPKCSOperation.verify_new prov mech key info =
        Except.error (KError.RvError CKR_KEY_SIZE_RANGE) ↔
      (m.length * 8 < info.ulMinKeySize ∨
        (info.ulMaxKeySize ≠ 0 ∧ m.length * 8 > info.ulMaxKeySize))) :=
  ⟨(encrypt_new_ksr_iff prov mech key info m hm).trans (keySizeBad_iff _ _),
   (decrypt_new_ksr_iff prov mech key info m hm).trans (keySizeBad_iff _ _),
   (sign_new_ksr_iff prov mech key info m hm).trans (keySizeBad_iff _ _),
   (verify_new_ksr_iff prov mech key info m hm).trans (keySizeBad_iff _ _)⟩

/-- C8 witness: a 4-byte modulus (32 bits) against `ulMinKeySize = 64`. -/
def c8info : MechInfo := ⟨64, 0, 0⟩

theorem rsa_new_key_size_gate_witness :
    (RsaPKCSOperation.encrypt_new cProv ⟨CKM_RSA_PKCS, 0, 0⟩
        ⟨3, [Attribute.from_bytes CKA_MODULUS [7, 7, 7, 7]]⟩ c8info =
        Except.error (KError.RvError CKR_KEY_SIZE_RANGE) ↔
      (([7, 7, 7, 7] : List Nat).length * 8 < c8info.ulMinKeySize ∨
        (c8info.ulMaxKeySize ≠ 0 ∧
          ([7, 7, 7, 7] : List Nat).length * 8 > c8info.ulMaxKeySize))) ∧
    (RsaPKCSOperation.decrypt_new cProv ⟨CKM_RSA_PKCS, 0, 0⟩
        ⟨3, [Attribute.from_bytes CKA_MODULUS [7, 7, 7, 7]]⟩ c8info =
        Except.error (KError.RvError CKR_KEY_SIZE_RANGE) ↔
      (([7, 7, 7, 7] : List Nat).length * 8 < c8info.ulMinKeySize ∨
        (c8info.ulMaxKeySize ≠ 0 ∧
          ([7, 7, 7, 7] : List Nat).length * 8 > c8info.ulMaxKeySize))) ∧
    (RsaPKCSOperation.sign_new cProv ⟨CKM_RSA_PKCS, 0, 0⟩
        ⟨3, [Attribute.from_bytes CKA_MODULUS [7, 7, 7, 7]]⟩ c8info =
        Except.error (KError.RvError CKR_KEY_SIZE_RANGE) ↔
      (([7, 7, 7, 7] : List Nat).length * 8 < c8info.ulMinKeySize ∨
        (c8info.ulMaxKeySize ≠ 0 ∧
          ([7, 7, 7, 7] : List Nat).length * 8 > c8info.ulMaxKeySize))) ∧
    (RsaPKCSOperation.verify_new cProv ⟨CKM_RSA_PKCS, 0, 0⟩
        ⟨3, [Attribute.from_bytes CKA_MODULUS [7, 7, 7, 7]]⟩ c8info =
        Except.error (KError.RvError CKR_KEY_SIZE_RANGE) ↔
      (([7, 7, 7, 7] : List Nat).length * 8 < c8info.ulMinKeySize ∨
        (c8info.ulMaxKeySize ≠ 0 ∧
          ([7, 7, 7, 7] : List Nat).length * 8 > c8info.ulMaxKeySize))) :=
  rsa_new_key_size_gate cProv ⟨CKM_RSA_PKCS, 0, 0⟩
    ⟨3, [Attribute.from_bytes CKA_MODULUS [7, 7, 7, 7]]⟩ c8info [7, 7, 7, 7]
    (by decide)

/-! ## HMAC key class/type gate (claim C10) -/

theorem cafk_ok (key : Object) (kt : Nat) (v : List Nat)
    (h : check_and_fetch_key key kt = Except.ok v) :
    key.get_attr_as_ulong CKA_CLASS = Except.ok CKO_SECRET_KEY ∧
    ∃ t, key.get_attr_as_ulong CKA_KEY_TYPE = Except.ok t ∧
      (t = kt ∨ t = CKK_GENERIC_SECRET) := by
  unfold check_and_fetch_key at h
  cases hc : key.get_attr_as_ulong CKA_CLASS with
  | error e => rw [hc] at h; simp [Except.bind, bind] at h
  | ok cls =>
    rw [hc] at h
    simp only [Except.bind, bind] at h
    by_cases hcls : cls = CKO_SECRET_KEY
    · subst hcls
      refine ⟨rfl, ?_⟩
      have hcond : ¬ (CKO_SECRET_KEY ≠ CKO_SECRET_KEY) := by simp
      rw [if_neg hcond] at h
      cases ht : key.get_attr_as_ulong CKA_KEY_TYPE with
      | error e => rw [ht] at h; simp at h
      | ok t =>
        rw [ht] at h
        simp only [] at h
        by_cases hgen : t = CKK_GENERIC_SECRET
        · exact ⟨t, rfl, Or.inr hgen⟩
        · by_cases hkt : t = kt
          · exact ⟨t, rfl, Or.inl hkt⟩
          · rw [if_pos ⟨hgen, hkt⟩] at h
            simp at h
    · rw [if_pos hcls] at h
      simp at h

theorem cafk_wrong_class (key : Object) (kt c : Nat)
    (hc : key.get_attr_as_ulong CKA_CLASS = Except.ok c)
    (hne : c ≠ CKO_SECRET_KEY) :
    check_and_fetch_key key kt =
      Except.error (KError.RvError CKR_KEY_TYPE_INCONSISTENT) := by
  unfold check_and_fetch_key
  rw [hc]
  simp [Except.bind, bind, hne]

theorem cafk_wrong_type (key : Object) (kt t : Nat)
    (hc : key.get_attr_as_ulong CKA_CLASS = Except.ok CKO_SECRET_KEY)
    (ht : key.get_attr_as_ulong CKA_KEY_TYPE = Except.ok t)
    (h1 : t ≠ kt) (h2 : t ≠ CKK_GENERIC_SECRET) :
    check_and_fetch_key key kt =
      Except.error (KError.RvError CKR_KEY_TYPE_INCONSISTENT) := by
  unfold check_and_fetch_key
  rw [hc]
  have hcond : ¬ (CKO_SECRET_KEY ≠ CKO_SECRET_KEY) := by simp
  simp only [Except.bind, bind]
  rw [if_neg hcond, ht]
  simp [h1, h2]

/-- C10.  `HMACMechanism::{sign_new, verify_new}` accept a key object only
when its `CLASS` is `CKO_SECRET_KEY` and its `KEY_TYPE` is the mechanism's
HMAC key type or `CKK_GENERIC_SECRET`; with a valid mechanism parameter, a
key of any other class or key type is rejected with
`CKR_KEY_TYPE_INCONSISTENT`. -/
theorem hmac_new_key_type_gate (H : List Nat → List Nat)
    (m : HMACMechanism) (mech : CkMech) (keyobj : Object) :
    (∀ opr, HMACMechanism.sign_new H m mech keyobj = Except.ok opr →
      keyobj.get_attr_as_ulong CKA_CLASS = Except.ok CKO_SECRET_KEY ∧
      ∃ t, keyobj.get_attr_as_ulong CKA_KEY_TYPE = Except.ok t ∧
        (t = m.keytype ∨ t = CKK_GENERIC_SECRET)) ∧
    (∀ opr, HMACMechanism.verify_new H m mech keyobj = Except.ok opr →
      keyobj.get_attr_as_ulong CKA_CLASS = Except.ok CKO_SECRET_KEY ∧
      ∃ t, keyobj.get_attr_as_ulong CKA_KEY_TYPE = Except.ok t ∧
        (t = m.keytype ∨ t = CKK_GENERIC_SECRET)) ∧
    (∀ n c, m.info.flags &&& CKF_SIGN = CKF_SIGN →
      check_and_fetch_param mech m.minlen m.maxlen = Except.ok n →
      keyobj.get_attr_as_ulong CKA_CLASS = Except.ok c →
      c ≠ CKO_SECRET_KEY →
      HMACMechanism.sign_new H m mech keyobj =
        Except.error (KError.RvError CKR_KEY_TYPE_INCONSISTENT)) ∧
    (∀ n t, m.info.flags &&& CKF_SIGN = CKF_SIGN →
      check_and_fetch_param mech m.minlen m.maxlen = Except.ok n →
      keyobj.get_attr_as_ulong CKA_CLASS = Except.ok CKO_SECRET_KEY →
      keyobj.get_attr_as_ulong CKA_KEY_TYPE = Except.ok t →
      t ≠ m.keytype → t ≠ CKK_GENERIC_SECRET →
      HMACMechanism.sign_new H m mech keyobj =
        Except.error (KError.RvError CKR_KEY_TYPE_INCONSISTENT)) ∧
    (∀ n c, m.info.flags &&& CKF_VERIFY = CKF_VERIFY →
      check_and_fetch_param mech m.minlen m.maxlen = Except.ok n →
      keyobj.get_attr_as_ulong CKA_CLASS = Except.ok c →
      c ≠ CKO_SECRET_KEY →
      HMACMechanism.verify_new H m mech keyobj =
        Except.error (KError.RvError CKR_KEY_TYPE_INCONSISTENT)) ∧
    (∀ n t, m.info.flags &&& CKF_VERIFY = CKF_VERIFY →
      check_and_fetch_param mech m.minlen m.maxlen = Except.ok n →
      keyobj.get_attr_as_ulong CKA_CLASS = Except.ok CKO_SECRET_KEY →
      keyobj.get_attr_as_ulong CKA_KEY_TYPE = Except.ok t →
      t ≠ m.keytype → t ≠ CKK_GENERIC_SECRET →
      HMACMechanism.verify_new H m mech keyobj =
        Except.error (KError.RvError CKR_KEY_TYPE_INCONSISTENT)) := by
  refine ⟨?_, ?_, ?_, ?_, ?_, ?_⟩
  · intro opr h
    unfold HMACMechanism.sign_new at h
    split at h
    · simp at h
    · simp only [Except.bind, bind] at h
      cases hp : check_and_fetch_param mech m.minlen m.maxlen with
      | error e => rw [hp] at h; simp at h
      | ok n =>
        rw [hp] at h
        cases hk : check_and_fetch_key keyobj m.keytype with
        | error e => rw [hk] at h; simp at h
        | ok v => exact cafk_ok keyobj m.keytype v hk
  · intro opr h
    unfold HMACMechanism.verify_new at h
    split at h
    · simp at h
    · simp only [Except.bind, bind] at h
      cases hp : check_and_fetch_param mech m.minlen m.maxlen with
      | error e => rw [hp] at h; simp at h
      | ok n =>
        rw [hp] at h
        cases hk : check_and_fetch_key keyobj m.keytype with
        | error e => rw [hk] at h; simp at h
        | ok v => exact cafk_ok keyobj m.keytype v hk
  · intro n c hflags hp hc hne
    unfold HMACMechanism.sign_new
    rw [if_neg (by simp [hflags])]
    simp only [Except.bind, bind, hp]
    rw [cafk_wrong_class keyobj m.keytype c hc hne]
  · intro n t hflags hp hc ht h1 h2
    unfold HMACMechanism.sign_new
    rw [if_neg (by simp [hflags])]
    simp only [Except.bind, bind, hp]
    rw [cafk_wrong_type keyobj m.keytype t hc ht h1 h2]
  · intro n c hflags hp hc hne
    unfold HMACMechanism.verify_new
    rw [if_neg (by simp [hflags])]
    simp only [Except.bind, bind, hp]
    rw [cafk_wrong_class keyobj m.keytype c hc hne]
  · intro n t hflags hp hc ht h1 h2
    unfold HMACMechanism.verify_new
    rw [if_neg (by simp [hflags])]
    simp only [Except.bind, bind, hp]
    rw [cafk_wrong_type keyobj m.keytype t hc ht h1 h2]

/-- The registered `CKM_SHA256_HMAC` mechanism entry (fixed-length variant:
`minlen = maxlen = 32`). -/
def hmacMech256 : HMACMechanism :=
  ⟨⟨0, 0, CKF_SIGN ||| CKF_VERIFY⟩, CKK_SHA256_HMAC, 32, 32⟩

/-- A well-formed HMAC key object. -/
def keyGood : Object :=
  ⟨4, [Attribute.from_ulong CKA_CLASS CKO_SECRET_KEY,
       Attribute.from_ulong CKA_KEY_TYPE CKK_SHA256_HMAC,
       Attribute.from_bytes CKA_VALUE [5, 6]]⟩

theorem hmac_new_key_type_gate_witness :
    keyGood.get_attr_as_ulong CKA_CLASS = Except.ok CKO_SECRET_KEY ∧
    ∃ t, keyGood.get_attr_as_ulong CKA_KEY_TYPE = Except.ok t ∧
      (t = hmacMech256.keytype ∨ t = CKK_GENERIC_SECRET) :=
  (hmac_new_key_type_gate witHash hmacMech256 ⟨CKM_SHA256_HMAC, 0, 0⟩
      keyGood).1
    (HMACOperation.init witHash 64 32 CKM_SHA256_HMAC [5, 6] 32) (by decide)

/-! ## Storage flush (claim C9) -/

theorem fromCacheLoop_eq_filter_map (objs : List Object) :
    fromCacheLoop objs =
      (objs.filter (fun o => o.is_token)).map JsonObject.from_object := by
  induction objs with
  | nil => rfl
  | cons o rest ih =>
    by_cases h : o.is_token <;>
      simp [fromCacheLoop, List.filter_cons, h, ih]

/-- C9.  `store` and `remove_by_uid` mutate the cache first and then flush,
the flushed persisted form being computed from the already-mutated cache;
`flush` serializes exactly the cached objects whose `TOKEN` attribute is
true, and an object with no `TOKEN` attribute is not a token object, hence
omitted. -/
theorem storage_flush_token_objects :
    (∀ (st : JsonStorage) (uid : String) (obj : Object),
      JsonStorage.store st uid obj =
        (⟨cacheStore st.cache uid obj⟩,
         JsonToken.from_cache (cacheStore st.cache uid obj))) ∧
    (∀ (st : JsonStorage) (uid : String),
      JsonStorage.remove_by_uid st uid =
        (⟨cacheRemove st.cache uid⟩,
         JsonToken.from_cache (cacheRemove st.cache uid))) ∧
    (∀ c : Cache,
      (JsonToken.from_cache c).objects =
        ((cacheSearch c []).filter (fun o => o.is_token)).map
          JsonObject.from_object) ∧
    (∀ o : Object, o.findAttr CKA_TOKEN = none → o.is_token = false) := by
  refine ⟨fun st uid obj => rfl, fun st uid => rfl, fun c => ?_, fun o h => ?_⟩
  · exact fromCacheLoop_eq_filter_map (cacheSearch c [])
  · simp [Object.is_token, Object.boolChecker, h]

/-- C9 witness: a two-object cache, one `TOKEN = true` and one with no
`TOKEN` attribute; the flush of `store` serializes only the token object. -/
def tokObj : Object :=
  ⟨5, [Attribute.from_bool CKA_TOKEN true,
       Attribute.from_string_bytes CKA_UNIQUE_ID [0x61]]⟩

def sessObj : Object :=
  ⟨6, [Attribute.from_string_bytes CKA_UNIQUE_ID [0x62]]⟩

theorem storage_flush_token_objects_witness :
    JsonStorage.store ⟨[("b", sessObj)]⟩ "a" tokObj =
      (⟨cacheStore [("b", sessObj)] "a" tokObj⟩,
       JsonToken.from_cache (cacheStore [("b", sessObj)] "a" tokObj)) ∧
    (JsonToken.from_cache (cacheStore [("b", sessObj)] "a" tokObj)).objects =
      [JsonObject.from_object tokObj] :=
  ⟨storage_flush_token_objects.1 ⟨[("b", sessObj)]⟩ "a" tokObj, by decide⟩

/-! ## EC-Montgomery keypair generation (claim C7) -/

theorem find?_setAttrList_self (l : List Attribute) (a : Attribute) :
    (setAttrList l a).find? (fun b => b.typ = a.typ) = some a := by
  induction l with
  | nil => simp [setAttrList, List.find?_cons]
  | cons b rest ih =>
    by_cases h : a.typ = b.typ
    · simp [setAttrList, h, List.find?_cons]
    · have hbne : ¬ b.typ = a.typ := fun hc => h hc.symm
      simp [setAttrList, h, List.find?_cons, hbne, ih]

theorem find?_setAttrList_ne (l : List Attribute) (a : Attribute) (t : Nat)
    (h : t ≠ a.typ) :
    (setAttrList l a).find? (fun b => b.typ = t) =
      l.find? (fun b => b.typ = t) := by
  have hat : ¬ a.typ = t := fun hc => h hc.symm
  induction l with
  | nil =>
    simp [setAttrList, List.find?_cons, hat]
  | cons b rest ih =>
    by_cases hb : a.typ = b.typ
    · have hbt : ¬ b.typ = t := fun hc => hat (hb.trans hc)
      simp [setAttrList, hb, List.find?_cons, hat, hbt]
    · by_cases hbt : b.typ = t
      · simp [setAttrList, hb, List.find?_cons, hbt, hat]
      · simp [setAttrList, hb, List.find?_cons, hbt, hat, ih]

theorem findAttr_set_attr_self (o : Object) (a : Attribute) :
    (o.set_attr a).findAttr a.typ = some a :=
  find?_setAttrList_self o.attributes a

theorem findAttr_set_attr_ne (o : Object) (a : Attribute) (t : Nat)
    (h : t ≠ a.typ) : (o.set_attr a).findAttr t = o.findAttr t :=
  find?_setAttrList_ne o.attributes a t h

theorem check_or_set_attr_ok (o : Object) (a : Attribute)
    (h : (o.check_or_set_attr a).1 = true) :
    ∃ c, (o.check_or_set_attr a).2.findAttr a.typ = some c ∧
      c.value = a.value := by
  unfold Object.check_or_set_attr at h ⊢
  cases hf : o.findAttr a.typ with
  | some cur =>
    rw [hf] at h
    dsimp only [] at h ⊢
    exact ⟨cur, hf, of_decide_eq_true h⟩
  | none =>
    rw [hf] at h
    dsimp only [] at h ⊢
    exact ⟨a, findAttr_set_attr_self o a, rfl⟩

theorem check_or_set_attr_keeps (o : Object) (a : Attribute) (t : Nat)
    (h : t ≠ a.typ) :
    (o.check_or_set_attr a).2.findAttr t = o.findAttr t := by
  unfold Object.check_or_set_attr
  cases hf : o.findAttr a.typ with
  | some cur => rfl
  | none => exact findAttr_set_attr_ne o a t h

theorem check_or_set_attr_contra (o : Object) (a cur : Attribute)
    (hf : o.findAttr a.typ = some cur) (hne : cur.value ≠ a.value) :
    (o.check_or_set_attr a).1 = false := by
  unfold Object.check_or_set_attr
  rw [hf]
  exact decide_eq_false hne

theorem get_attr_as_bytes_of_find (o : Object) (t : Nat) (a : Attribute)
    (hf : o.findAttr t = some a) (hb : a.atype = AttrType.BytesType) :
    o.get_attr_as_bytes t = Except.ok a.value := by
  unfold Object.get_attr_as_bytes
  rw [hf]
  dsimp only []
  rw [if_pos hb]
  unfold Attribute.to_bytes
  rw [if_pos hb]

theorem get_attr_as_bytes_ok (o : Object) (t : Nat) (v : List Nat)
    (h : o.get_attr_as_bytes t = Except.ok v) :
    ∃ a, o.findAttr t = some a ∧ a.atype = AttrType.BytesType ∧
      a.value = v := by
  unfold Object.get_attr_as_bytes at h
  cases hf : o.findAttr t with
  | none => rw [hf] at h; simp at h
  | some a =>
    rw [hf] at h
    dsimp only [] at h
    by_cases ha : a.atype = AttrType.BytesType
    · rw [if_pos ha] at h
      unfold Attribute.to_bytes at h
      rw [if_pos ha] at h
      exact ⟨a, rfl, ha, Except.ok.inj h⟩
    · rw [if_neg ha] at h
      simp at h

/-- An object attribute that contradicts a forced attribute: present under
the forced id with different value bytes. -/
def contradicts (o : Object) (a : Attribute) : Prop :=
  ∃ cur, o.findAttr a.typ = some cur ∧ cur.value ≠ a.value

/-- C7.  `ECMontgomeryMechanism::generate_keypair` forces `CLASS` to
public-key on the public object and private-key on the private object and
`KEY_TYPE` to `CKK_EC_EDWARDS` on both; a user template contradicting any
forced value is rejected with `CKR_TEMPLATE_INCONSISTENT`; `EC_PARAMS` is
copied from the public object to the private object, a contradicting
private `EC_PARAMS` likewise rejected; and on success the produced objects
carry the forced values and equal `EC_PARAMS`. -/
theorem ecm_generate_keypair_forces_attrs (pt sk : List Nat)
    (pub0 priv0 : Object) :
    ((contradicts pub0 (Attribute.from_ulong CKA_CLASS CKO_PUBLIC_KEY) ∨
      contradicts pub0 (Attribute.from_ulong CKA_KEY_TYPE CKK_EC_EDWARDS) ∨
      contradicts priv0 (Attribute.from_ulong CKA_CLASS CKO_PRIVATE_KEY) ∨
      contradicts priv0 (Attribute.from_ulong CKA_KEY_TYPE CKK_EC_EDWARDS)) →
      ECMontgomeryMechanism.generate_keypair pt sk pub0 priv0 =
        Except.error (KError.RvError CKR_TEMPLATE_INCONSISTENT)) ∧
    (∀ pa, pub0.findAttr CKA_EC_PARAMS = some pa →
      pa.atype = AttrType.BytesType →
      contradicts priv0 (Attribute.from_bytes CKA_EC_PARAMS pa.value) →
      ECMontgomeryMechanism.generate_keypair pt sk pub0 priv0 =
        Except.error (KError.RvError CKR_TEMPLATE_INCONSISTENT)) ∧
    (∀ pb pv,
      ECMontgomeryMechanism.generate_keypair pt sk pub0 priv0 =
        Except.ok (pb, pv) →
      (∃ c, pb.findAttr CKA_CLASS = some c ∧
        c.value = ulongToBytes CKO_PUBLIC_KEY) ∧
      (∃ c, pb.findAttr CKA_KEY_TYPE = some c ∧
        c.value = ulongToBytes CKK_EC_EDWARDS) ∧
      (∃ c, pv.findAttr CKA_CLASS = some c ∧
        c.value = ulongToBytes CKO_PRIVATE_KEY) ∧
      (∃ c, pv.findAttr CKA_KEY_TYPE = some c ∧
        c.value = ulongToBytes CKK_EC_EDWARDS) ∧
      (∃ pa pc, pb.findAttr CKA_EC_PARAMS = some pa ∧
        pv.findAttr CKA_EC_PARAMS = some pc ∧ pc.value = pa.value)) := by
  refine ⟨?_, ?_, ?_⟩
  · intro hcontra
    unfold ECMontgomeryMechanism.generate_keypair
    rcases hcontra with ⟨cur, hf, hne⟩ | ⟨cur, hf, hne⟩ | ⟨cur, hf, hne⟩ |
      ⟨cur, hf, hne⟩
    · have h1 := check_or_set_attr_contra pub0 _ cur hf hne
      simp [h1]
    · cases h1 : (pub0.check_or_set_attr
          (Attribute.from_ulong CKA_CLASS CKO_PUBLIC_KEY)).1 with
      | false => simp [h1]
      | true =>
        have hf1 : (pub0.check_or_set_attr
            (Attribute.from_ulong CKA_CLASS CKO_PUBLIC_KEY)).2.findAttr
              CKA_KEY_TYPE = some cur := by
          rw [check_or_set_attr_keeps _ _ _ (by decide)]
          exact hf
        have h2 := check_or_set_attr_contra _
          (Attribute.from_ulong CKA_KEY_TYPE CKK_EC_EDWARDS) cur hf1 hne
        simp [h1, h2]
    · cases h1 : (pub0.check_or_set_attr
          (Attribute.from_ulong CKA_CLASS CKO_PUBLIC_KEY)).1 with
      | false => simp [h1]
      | true =>
        cases h2 : ((pub0.check_or_set_attr
            (Attribute.from_ulong CKA_CLASS CKO_PUBLIC_KEY)).2.check_or_set_attr
              (Attribute.from_ulong CKA_KEY_TYPE CKK_EC_EDWARDS)).1 with
        | false => simp [h1, h2]
        | true =>
          have h3 := check_or_set_attr_contra priv0 _ cur hf hne
          simp [h1, h2, h3]
    · cases h1 : (pub0.check_or_set_attr
          (Attribute.from_ulong CKA_CLASS CKO_PUBLIC_KEY)).1 with
      | false => simp [h1]
      | true =>
        cases h2 : ((pub0.check_or_set_attr
            (Attribute.from_ulong CKA_CLASS CKO_PUBLIC_KEY)).2.check_or_set_attr
              (Attribute.from_ulong CKA_KEY_TYPE CKK_EC_EDWARDS)).1 with
        | false => simp [h1, h2]
        | true =>
          cases h3 : (priv0.check_or_set_attr
              (Attribute.from_ulong CKA_CLASS CKO_PRIVATE_KEY)).1 with
          | false => simp [h1, h2, h3]
          | true =>
            have hf1 : (priv0.check_or_set_attr
                (Attribute.from_ulong CKA_CLASS CKO_PRIVATE_KEY)).2.findAttr
                  CKA_KEY_TYPE = some cur := by
              rw [check_or_set_attr_keeps _ _ _ (by decide)]
              exact hf
            have h4 := check_or_set_attr_contra _
              (Attribute.from_ulong CKA_KEY_TYPE CKK_EC_EDWARDS) cur hf1 hne
            simp [h1, h2, h3, h4]
  · intro pa hfind hba hcontra
    obtain ⟨cur, hfp, hne⟩ := hcontra
    unfold ECMontgomeryMechanism.generate_keypair
    cases h1 : (pub0.check_or_set_attr
        (Attribute.from_ulong CKA_CLASS CKO_PUBLIC_KEY)).1 with
    | false => simp [h1]
    | true =>
      cases h2 : ((pub0.check_or_set_attr
          (Attribute.from_ulong CKA_CLASS CKO_PUBLIC_KEY)).2.check_or_set_attr
            (Attribute.from_ulong CKA_KEY_TYPE CKK_EC_EDWARDS)).1 with
      | false => simp [h1, h2]
      | true =>
        cases h3 : (priv0.check_or_set_attr
            (Attribute.from_ulong CKA_CLASS CKO_PRIVATE_KEY)).1 with
        | false => simp [h1, h2, h3]
        | true =>
          cases h4 : ((priv0.check_or_set_attr
              (Attribute.from_ulong CKA_CLASS CKO_PRIVATE_KEY)).2.check_or_set_attr
                (Attribute.from_ulong CKA_KEY_TYPE CKK_EC_EDWARDS)).1 with
          | false => simp [h1, h2, h3, h4]
          | true =>
            have hfind2 : ((pub0.check_or_set_attr
                (Attribute.from_ulong CKA_CLASS CKO_PUBLIC_KEY)).2.check_or_set_attr
                  (Attribute.from_ulong CKA_KEY_TYPE CKK_EC_EDWARDS)).2.findAttr
                    CKA_EC_PARAMS = some pa := by
              rw [check_or_set_attr_keeps _ _ _ (by decide),
                check_or_set_attr_keeps _ _ _ (by decide)]
              exact hfind
            have hfetch := get_attr_as_bytes_of_find _ CKA_EC_PARAMS pa
              hfind2 hba
            have hfp2 : ((priv0.check_or_set_attr
                (Attribute.from_ulong CKA_CLASS CKO_PRIVATE_KEY)).2.check_or_set_attr
                  (Attribute.from_ulong CKA_KEY_TYPE CKK_EC_EDWARDS)).2.findAttr
                    CKA_EC_PARAMS = some cur := by
              rw [check_or_set_attr_keeps _ _ _ (by decide),
                check_or_set_attr_keeps _ _ _ (by decide)]
              exact hfp
            have h5 := check_or_set_attr_contra _
              (Attribute.from_bytes CKA_EC_PARAMS pa.value) cur hfp2 hne
            simp [h1, h2, h3, h4, hfetch, h5]
  · intro pb pv h
    unfold ECMontgomeryMechanism.generate_keypair at h
    cases h1 : (pub0.check_or_set_attr
        (Attribute.from_ulong CKA_CLASS CKO_PUBLIC_KEY)).1 with
    | false => simp [h1] at h
    | true =>
      cases h2 : ((pub0.check_or_set_attr
          (Attribute.from_ulong CKA_CLASS CKO_PUBLIC_KEY)).2.check_or_set_attr
            (Attribute.from_ulong CKA_KEY_TYPE CKK_EC_EDWARDS)).1 with
      | false => simp [h1, h2] at h
      | true =>
        cases h3 : (priv0.check_or_set_attr
            (Attribute.from_ulong CKA_CLASS CKO_PRIVATE_KEY)).1 with
        | false => simp [h1, h2, h3] at h
        | true =>
          cases h4 : ((priv0.check_or_set_attr
              (Attribute.from_ulong CKA_CLASS CKO_PRIVATE_KEY)).2.check_or_set_attr
                (Attribute.from_ulong CKA_KEY_TYPE CKK_EC_EDWARDS)).1 with
          | false => simp [h1, h2, h3, h4] at h
          | true =>
            cases hfetch : ((pub0.check_or_set_attr
                (Attribute.from_ulong CKA_CLASS CKO_PUBLIC_KEY)).2.check_or_set_attr
                  (Attribute.from_ulong CKA_KEY_TYPE CKK_EC_EDWARDS)).2.get_attr_as_bytes
                    CKA_EC_PARAMS with
            | error e => simp [h1, h2, h3, h4, hfetch] at h
            | ok ec =>
              cases h5 : (((priv0.check_or_set_attr
                  (Attribute.from_ulong CKA_CLASS CKO_PRIVATE_KEY)).2.check_or_set_attr
                    (Attribute.from_ulong CKA_KEY_TYPE CKK_EC_EDWARDS)).2.check_or_set_attr
                      (Attribute.from_bytes CKA_EC_PARAMS ec)).1 with
              | false => simp [h1, h2, h3, h4, hfetch, h5] at h
              | true =>
                simp only [h1, h2, h3, h4, hfetch, h5, Bool.not_true,
                  Bool.not_false, if_true, if_false, Bool.false_eq_true,
                  not_false_eq_true, not_true_eq_false, ite_true, ite_false,
                  Except.ok.injEq, Prod.mk.injEq] at h
                obtain ⟨hpb, hpv⟩ := h
                subst hpb
                subst hpv
                obtain ⟨cb, hcb, hvb⟩ := check_or_set_attr_ok pub0
                  (Attribute.from_ulong CKA_CLASS CKO_PUBLIC_KEY) h1
                obtain ⟨kb, hkb, hvk⟩ := check_or_set_attr_ok _
                  (Attribute.from_ulong CKA_KEY_TYPE CKK_EC_EDWARDS) h2
                obtain ⟨cv, hcv, hvc⟩ := check_or_set_attr_ok priv0
                  (Attribute.from_ulong CKA_CLASS CKO_PRIVATE_KEY) h3
                obtain ⟨kv, hkv, hvkv⟩ := check_or_set_attr_ok _
                  (Attribute.from_ulong CKA_KEY_TYPE CKK_EC_EDWARDS) h4
                obtain ⟨pa, hpa, hta, hva⟩ :=
                  get_attr_as_bytes_ok _ CKA_EC_PARAMS ec hfetch
                obtain ⟨pc, hpc, hvpc⟩ := check_or_set_attr_ok _
                  (Attribute.from_bytes CKA_EC_PARAMS ec) h5
                refine ⟨⟨cb, ?_, hvb⟩, ⟨kb, ?_, hvk⟩, ⟨cv, ?_, hvc⟩,
                  ⟨kv, ?_, hvkv⟩, ⟨pa, pc, ?_, ?_, hvpc.trans hva.symm⟩⟩
                · unfold default_key_attributes ecmKeygen
                  rw [findAttr_set_attr_ne _ _ _ (by decide),
                    findAttr_set_attr_ne _ _ _
                      (show CKA_CLASS ≠ CKA_EC_POINT by decide),
                    check_or_set_attr_keeps _ _ _ (by decide)]
                  exact hcb
                · unfold default_key_attributes ecmKeygen
                  rw [findAttr_set_attr_ne _ _ _ (by decide),
                    findAttr_set_attr_ne _ _ _
                      (show CKA_KEY_TYPE ≠ CKA_EC_POINT by decide)]
                  exact hkb
                · unfold default_key_attributes ecmKeygen
                  rw [findAttr_set_attr_ne _ _ _ (by decide),
                    findAttr_set_attr_ne _ _ _
                      (show CKA_CLASS ≠ CKA_VALUE by decide),
                    check_or_set_attr_keeps _ _ _
                      (show CKA_CLASS ≠ CKA_EC_PARAMS by decide),
                    check_or_set_attr_keeps _ _ _ (by decide)]
                  exact hcv
                · unfold default_key_attributes ecmKeygen
                  rw [findAttr_set_attr_ne _ _ _ (by decide),
                    findAttr_set_attr_ne _ _ _
                      (show CKA_KEY_TYPE ≠ CKA_VALUE by decide),
                    check_or_set_attr_keeps _ _ _
                      (show CKA_KEY_TYPE ≠ CKA_EC_PARAMS by decide)]
                  exact hkv
                · unfold default_key_attributes ecmKeygen
                  rw [findAttr_set_attr_ne _ _ _ (by decide),
                    findAttr_set_attr_ne _ _ _
                      (show CKA_EC_PARAMS ≠ CKA_EC_POINT by decide)]
                  exact hpa
                · unfold default_key_attributes ecmKeygen
                  rw [findAttr_set_attr_ne _ _ _ (by decide),
                    findAttr_set_attr_ne _ _ _
                      (show CKA_EC_PARAMS ≠ CKA_VALUE by decide)]
                  exact hpc

/-- C7 witness: a public template carrying `CLASS = CKO_PRIVATE_KEY`
contradicts the forced public-key class and is rejected. -/
def c7pubBad : Object := ⟨7, [Attribute.from_ulong CKA_CLASS CKO_PRIVATE_KEY]⟩

theorem ecm_generate_keypair_forces_attrs_witness :
    ECMontgomeryMechanism.generate_keypair [1] [2] c7pubBad ⟨8, []⟩ =
      Except.error (KError.RvError CKR_TEMPLATE_INCONSISTENT) :=
  (ecm_generate_keypair_forces_attrs [1] [2] c7pubBad ⟨8, []⟩).1
    (Or.inl ⟨Attribute.from_ulong CKA_CLASS CKO_PRIVATE_KEY,
      by decide, by decide⟩)

end Kryoptic
